import Mathlib

/-!
Verification of the ChronoLock audio-to-emotion inference engine
(`src/components/EmotionAnalysis.tsx`, weighted-score variant: the feature
extractor `calculateAverageAmplitude` … `analyzeBreathingPatterns` and the
classifier `determineEmotionFromFeatures` with its sixteen
`calculate*Score` functions).

Modelling conventions:
* JavaScript numbers are modelled as exact rationals (`ℚ`).
* A JavaScript value that may be `NaN` is modelled as `Option ℚ`, with
  `none` standing for `NaN`.  In this engine the only source of a
  non-finite value is a `0/0` division (all other divisions have provably
  nonzero denominators and zero numerators whenever the denominator can
  vanish), so `jdivO`, which yields `none` exactly when the denominator is
  zero, is faithful.  Arithmetic on `Option ℚ` propagates `none` exactly
  as JavaScript propagates `NaN` through `+`, `*`, `-`, `/`, `Math.min`,
  `Math.max`, and `>` comparisons (which are `false` when either side is
  `NaN`).
* `Math.sqrt` is modelled by `ratSqrt`, which is exact on perfect squares
  of rationals and returns `0` otherwise.  Every theorem below uses
  `ratSqrt` either at a perfect-square argument (where it agrees with
  `Math.sqrt`) or only through properties that `Math.sqrt` shares
  (totality and positive homogeneity `sqrt (k² v) = k sqrt v`).
* The per-candidate random jitter `0.8 + Math.random() * 0.4` and the
  final `randomFactor` are modelled as explicit parameters.
-/

/-- Constant embedding of a plain (finite) JavaScript number. -/
def oc (q : ℚ) : Option ℚ := some q

/-- JavaScript `+` with NaN propagation. -/
def jadd : Option ℚ → Option ℚ → Option ℚ
  | some a, some b => some (a + b)
  | _, _ => none

/-- JavaScript `-` with NaN propagation. -/
def jsub : Option ℚ → Option ℚ → Option ℚ
  | some a, some b => some (a - b)
  | _, _ => none

/-- JavaScript `*` with NaN propagation. -/
def jmul : Option ℚ → Option ℚ → Option ℚ
  | some a, some b => some (a * b)
  | _, _ => none

/-- JavaScript `/`: `none` when the denominator is zero (in this engine a
zero denominator always comes with a zero numerator, i.e. `NaN`). -/
def jdivO : Option ℚ → Option ℚ → Option ℚ
  | some a, some b => if b = 0 then none else some (a / b)
  | _, _ => none

/-- JavaScript `Math.min` (NaN-absorbing). -/
def jmin : Option ℚ → Option ℚ → Option ℚ
  | some a, some b => some (min a b)
  | _, _ => none

/-- JavaScript `Math.max` (NaN-absorbing). -/
def jmax : Option ℚ → Option ℚ → Option ℚ
  | some a, some b => some (max a b)
  | _, _ => none

/-- JavaScript `>` comparison: `false` when either side is `NaN`. -/
def jgtB : Option ℚ → Option ℚ → Bool
  | some a, some b => decide (b < a)
  | _, _ => false

/-- JavaScript `Math.abs` with NaN propagation. -/
def jabs : Option ℚ → Option ℚ
  | some a => some |a|
  | none => none

/-- `Math.sqrt`, restricted to what the engine's proofs need: exact on
perfect squares of rationals (a reduced rational is a square iff its
numerator and denominator are squares), `0` on non-squares.  Negative
inputs cannot reach it in this engine (its arguments are variances). -/
def ratSqrt (q : ℚ) : ℚ :=
  if 0 ≤ q.num ∧ Nat.sqrt q.num.toNat * Nat.sqrt q.num.toNat = q.num.toNat
      ∧ Nat.sqrt q.den * Nat.sqrt q.den = q.den
  then (Nat.sqrt q.num.toNat : ℚ) / (Nat.sqrt q.den : ℚ)
  else 0

/-- Mean of a list of numbers, as in `reduce((a,b) => a+b, 0) / length`. -/
def listMean (l : List ℚ) : ℚ := l.sum / l.length

/-- Population variance as computed by the source:
`reduce((s,x) => s + Math.pow(x - mean, 2), 0) / length`. -/
def listVariance (l : List ℚ) : ℚ :=
  ((l.map (fun x => (x - listMean l) * (x - listMean l))).sum) / l.length

/-- Sum of absolute values (`sum += Math.abs(x)`). -/
def sumAbs (l : List ℚ) : ℚ := (l.map (fun x => |x|)).sum

/-- Sum of squares (`energy += x * x`). -/
def sumSq (l : List ℚ) : ℚ := (l.map (fun x => x * x)).sum

/-- Fuelled core of `jsWindows`; the fuel is the buffer length, which
bounds the number of iterations of the JavaScript loop. -/
def jsWindowsGo (w : ℕ) : ℕ → List ℚ → List (List ℚ)
  | 0, _ => []
  | fuel + 1, xs => if w < xs.length then xs.take w :: jsWindowsGo w fuel (xs.drop w) else []

/-- The non-overlapping windows visited by the idiom
`for (i = 0; i < data.length - windowSize; i += windowSize)`: full windows
of size `w`, the window starting at exactly `length - w` being excluded by
the strict `<`. -/
def jsWindows (xs : List ℚ) (w : ℕ) : List (List ℚ) := jsWindowsGo w xs.length xs

/-- Number of adjacent pairs whose `>= 0` signs differ
(`(data[i] >= 0) !== (data[i-1] >= 0)`). -/
def countCrossings : List ℚ → ℕ
  | a :: b :: t => (if decide (0 ≤ b) ≠ decide (0 ≤ a) then 1 else 0) + countCrossings (b :: t)
  | _ => 0

/-- Number of strict local maxima above a threshold
(`e[i] > th && e[i] > e[i-1] && e[i] > e[i+1]` for `1 ≤ i ≤ len-2`). -/
def countPeaks : List ℚ → ℚ → ℕ
  | a :: b :: c :: t, th =>
    (if th < b ∧ a < b ∧ c < b then 1 else 0) + countPeaks (b :: c :: t) th
  | _, _ => 0

/-- Autocorrelation at lag `p`:
`for (i = 0; i < w.length - p; i++) corr += w[i] * w[i+p]`. -/
def corrAt (w : List ℚ) (p : ℕ) : ℚ :=
  ((w.zip (w.drop p)).map (fun ab => ab.1 * ab.2)).sum

/-- Fuelled argmax loop of `estimatePitchFromWindow`: scans periods `p`
with `p < w.length / 2` (i.e. `2 p < w.length`), keeping the first period
whose correlation strictly exceeds the running maximum (initially `0`). -/
def pitchSearchGo (w : List ℚ) : ℕ → ℕ → ℚ → ℕ → ℕ
  | 0, _, _, best => best
  | fuel + 1, p, maxCorr, best =>
    if 2 * p < w.length then
      if maxCorr < corrAt w p then pitchSearchGo w fuel (p + 1) (corrAt w p) p
      else pitchSearchGo w fuel (p + 1) maxCorr best
    else best

/-- `bestPeriod` found by the autocorrelation search starting at period 20. -/
def pitchSearch (w : List ℚ) : ℕ := pitchSearchGo w w.length 20 0 0

/-- `estimatePitchFromWindow` with the hard-coded conversion constant made
explicit (the source uses `44100`). -/
def estimatePitchWith (c : ℚ) (w : List ℚ) : ℚ :=
  if 0 < pitchSearch w then c / (pitchSearch w : ℚ) else 0

/-- `estimatePitchFromWindow`: `bestPeriod > 0 ? 44100 / bestPeriod : 0`. -/
def estimatePitchFromWindow (w : List ℚ) : ℚ :=
  if 0 < pitchSearch w then 44100 / (pitchSearch w : ℚ) else 0

/-- `calculateAverageAmplitude`: mean absolute amplitude (NaN on the empty
buffer, from `0/0`). -/
def calculateAverageAmplitude (xs : List ℚ) : Option ℚ :=
  jdivO (oc (sumAbs xs)) (oc (xs.length : ℚ))

/-- `calculateEnergyVariance`: standard deviation of per-1024-window mean
square energy; `0` when there are fewer than 2 windows. -/
def calculateEnergyVariance (xs : List ℚ) : ℚ :=
  let energies := (jsWindows xs 1024).map (fun w => sumSq w / 1024)
  if energies.length < 2 then 0 else ratSqrt (listVariance energies)

/-- `calculateZeroCrossingRate`: sign changes divided by buffer length. -/
def calculateZeroCrossingRate (xs : List ℚ) : Option ℚ :=
  jdivO (oc (countCrossings xs : ℚ)) (oc (xs.length : ℚ))

/-- Accumulator of `calculateSpectralCentroid`'s loop: runs over the first
`min(2048, length)` samples with index `i`, summing
`(i * sampleRate) / (2 * 2048) * |x|` and `|x|`. -/
def centroidSums (rate : ℚ) : List ℚ → ℕ → ℚ × ℚ
  | [], _ => (0, 0)
  | x :: t, i =>
    let rest := centroidSums rate t (i + 1)
    (rest.1 + (i : ℚ) * rate / (2 * 2048) * |x|, rest.2 + |x|)

/-- `calculateSpectralCentroid` (time-domain proxy):
`magnitudeSum > 0 ? weightedSum / magnitudeSum : 0`. -/
def calculateSpectralCentroid (xs : List ℚ) (rate : ℚ) : ℚ :=
  let s := centroidSums rate (xs.take 2048) 0
  if 0 < s.2 then s.1 / s.2 else 0

/-- `estimateTempo`: peaks of 100 ms window energies above `1.5 × mean`,
divided by the duration in minutes (NaN on the empty buffer, from `0/0`). -/
def estimateTempo (xs : List ℚ) (rate : ℚ) : Option ℚ :=
  let w : ℕ := (Int.floor (rate * 0.1)).toNat
  let energies := (jsWindows xs w).map sumSq
  let peaks := countPeaks energies (listMean energies * 1.5)
  jdivO (oc (peaks : ℚ)) (oc ((xs.length : ℚ) / rate / 60))

/-- `calculatePitchVariation` with the pitch conversion constant explicit:
coefficient of variation of the positive per-window pitches; `0` when
fewer than 2 windows yield a pitch. -/
def calculatePitchVariationWith (c : ℚ) (xs : List ℚ) : ℚ :=
  let pitches := ((jsWindows xs 1024).map (estimatePitchWith c)).filter (fun p => decide (0 < p))
  if pitches.length < 2 then 0 else ratSqrt (listVariance pitches) / listMean pitches

/-- `calculatePitchVariation` as in the source (constant `44100`). -/
def calculatePitchVariation (xs : List ℚ) : ℚ :=
  let pitches := ((jsWindows xs 1024).map estimatePitchFromWindow).filter (fun p => decide (0 < p))
  if pitches.length < 2 then 0 else ratSqrt (listVariance pitches) / listMean pitches

/-- `calculateSilenceRatio`: fraction of samples with `|x| < 0.01` (NaN on
the empty buffer, from `0/0`). -/
def calculateSilenceRatio (xs : List ℚ) : Option ℚ :=
  jdivO (oc (xs.countP (fun x => decide (|x| < 0.01)) : ℚ)) (oc (xs.length : ℚ))

/-- `calculateLowFrequencyEnergy`: sum of squares of the first
`min(512, length)` samples, divided by the constant 512. -/
def calculateLowFrequencyEnergy (xs : List ℚ) : ℚ :=
  sumSq (xs.take 512) / 512

/-- `calculateHighFrequencyEnergy`: mean square over the 512-sample window
starting at `Math.floor(0.6 × length)` (NaN on the empty buffer). -/
def calculateHighFrequencyEnergy (xs : List ℚ) : Option ℚ :=
  let s : ℕ := (Int.floor ((xs.length : ℚ) * 0.6)).toNat
  let e : ℕ := min (s + 512) xs.length
  jdivO (oc (sumSq ((xs.drop s).take (e - s)))) (oc ((e : ℚ) - (s : ℚ)))

/-- `calculateVoiceStability`: mean over 2048-sample windows of
`1 / (1 + stddev(|x|) * 10)`; `0` when there are no windows. -/
def calculateVoiceStability (xs : List ℚ) : ℚ :=
  let stabilities := (jsWindows xs 2048).map (fun w =>
    let m := sumAbs w / w.length
    let v := ((w.map (fun x => (|x| - m) * (|x| - m))).sum) / w.length
    1 / (1 + ratSqrt v * 10))
  if 0 < stabilities.length then stabilities.sum / stabilities.length else 0

/-- `analyzeBreathingPatterns`: standard deviation of the per-500 ms-window
fraction of samples with `|x| < 0.005`; `0` when fewer than 2 windows. -/
def analyzeBreathingPatterns (xs : List ℚ) (rate : ℚ) : ℚ :=
  let w : ℕ := (Int.floor (rate * 0.5)).toNat
  let indicators := (jsWindows xs w).map (fun win =>
    (win.countP (fun x => decide (|x| < 0.005)) : ℚ) / (w : ℚ))
  if indicators.length < 2 then 0 else ratSqrt (listVariance indicators)

/-- The `AudioFeatures` record of the source.  Fields that a `0/0`
division can make NaN are the `jdivO` results; the remaining extractors
are total and always finite, so they are wrapped with `oc`. -/
structure AudioFeatures where
  duration : Option ℚ
  averageAmplitude : Option ℚ
  energyVariance : Option ℚ
  zeroCrossingRate : Option ℚ
  spectralCentroid : Option ℚ
  tempo : Option ℚ
  pitchVariation : Option ℚ
  silenceRatio : Option ℚ
  lowFrequencyEnergy : Option ℚ
  highFrequencyEnergy : Option ℚ
  voiceStability : Option ℚ
  breathingPatterns : Option ℚ
deriving DecidableEq

/-- `extractAudioFeatures` on an already-decoded sample buffer
(`duration` is the decoder's `length / sampleRate`). -/
def extractAudioFeatures (xs : List ℚ) (rate : ℚ) : AudioFeatures where
  duration := jdivO (oc (xs.length : ℚ)) (oc rate)
  averageAmplitude := calculateAverageAmplitude xs
  energyVariance := oc (calculateEnergyVariance xs)
  zeroCrossingRate := calculateZeroCrossingRate xs
  spectralCentroid := oc (calculateSpectralCentroid xs rate)
  tempo := estimateTempo xs rate
  pitchVariation := oc (calculatePitchVariation xs)
  silenceRatio := calculateSilenceRatio xs
  lowFrequencyEnergy := oc (calculateLowFrequencyEnergy xs)
  highFrequencyEnergy := calculateHighFrequencyEnergy xs
  voiceStability := oc (calculateVoiceStability xs)
  breathingPatterns := oc (analyzeBreathingPatterns xs rate)

/-- One jitter factor (`0.8 + Math.random() * 0.4` in the source) per
emotion candidate, made explicit. -/
structure Jitters where
  joyful : ℚ
  excited : ℚ
  hopeful : ℚ
  grateful : ℚ
  peaceful : ℚ
  determined : ℚ
  nostalgic : ℚ
  contemplative : ℚ
  melancholic : ℚ
  sad : ℚ
  anxious : ℚ
  worried : ℚ
  angry : ℚ
  frustrated : ℚ
  confused : ℚ
  lonely : ℚ

/-- All jitter factors pinned to 1 (midpoint of `[0.8, 1.2]`). -/
def unitJitters : Jitters :=
  ⟨1, 1, 1, 1, 1, 1, 1, 1, 1, 1, 1, 1, 1, 1, 1, 1⟩

/-- All sixteen jitters within the source's `0.8 … 1.2` range. -/
def jittersInRange (J : Jitters) : Prop :=
  (0.8 ≤ J.joyful ∧ J.joyful ≤ 1.2) ∧ (0.8 ≤ J.excited ∧ J.excited ≤ 1.2) ∧
  (0.8 ≤ J.hopeful ∧ J.hopeful ≤ 1.2) ∧ (0.8 ≤ J.grateful ∧ J.grateful ≤ 1.2) ∧
  (0.8 ≤ J.peaceful ∧ J.peaceful ≤ 1.2) ∧ (0.8 ≤ J.determined ∧ J.determined ≤ 1.2) ∧
  (0.8 ≤ J.nostalgic ∧ J.nostalgic ≤ 1.2) ∧ (0.8 ≤ J.contemplative ∧ J.contemplative ≤ 1.2) ∧
  (0.8 ≤ J.melancholic ∧ J.melancholic ≤ 1.2) ∧ (0.8 ≤ J.sad ∧ J.sad ≤ 1.2) ∧
  (0.8 ≤ J.anxious ∧ J.anxious ≤ 1.2) ∧ (0.8 ≤ J.worried ∧ J.worried ≤ 1.2) ∧
  (0.8 ≤ J.angry ∧ J.angry ≤ 1.2) ∧ (0.8 ≤ J.frustrated ∧ J.frustrated ≤ 1.2) ∧
  (0.8 ≤ J.confused ∧ J.confused ≤ 1.2) ∧ (0.8 ≤ J.lonely ∧ J.lonely ≤ 1.2)

def calculateJoyfulScore (amplitude tempo highFreq stability : Option ℚ) (jitter : ℚ) : Option ℚ :=
  jmul (jadd (jadd (jadd (jmul amplitude (oc 0.3)) (jmul tempo (oc 0.3)))
    (jmul highFreq (oc 0.2))) (jmul stability (oc 0.2))) (oc jitter)

def calculateExcitedScore (amplitude tempo variance pitchVar : Option ℚ) (jitter : ℚ) : Option ℚ :=
  jmul (jadd (jadd (jadd (jmul amplitude (oc 0.25)) (jmul tempo (oc 0.25)))
    (jmul variance (oc 0.25))) (jmul pitchVar (oc 0.25))) (oc jitter)

def calculateHopefulScore (amplitude centroid stability highFreq : Option ℚ) (jitter : ℚ) : Option ℚ :=
  jmul (jadd (jadd (jadd (jmul amplitude (oc 0.2)) (jmul centroid (oc 0.3)))
    (jmul stability (oc 0.3))) (jmul highFreq (oc 0.2))) (oc jitter)

def calculateGratefulScore (amplitude stability lowFreq silenceRatio : Option ℚ) (jitter : ℚ) : Option ℚ :=
  let silenceScore := jmax (oc 0) (jsub (oc 0.5) silenceRatio)
  jmul (jadd (jadd (jadd (jmul amplitude (oc 0.25)) (jmul stability (oc 0.35)))
    (jmul lowFreq (oc 0.2))) (jmul silenceScore (oc 0.2))) (oc jitter)

def calculatePeacefulScore (amplitude stability silenceRatio variance : Option ℚ) (jitter : ℚ) : Option ℚ :=
  let lowAmplitudeScore := jmax (oc 0) (jsub (oc 0.7) amplitude)
  let lowVarianceScore := jmax (oc 0) (jsub (oc 0.8) variance)
  jmul (jadd (jadd (jadd (jmul lowAmplitudeScore (oc 0.3)) (jmul stability (oc 0.3)))
    (jmul silenceRatio (oc 0.2))) (jmul lowVarianceScore (oc 0.2))) (oc jitter)

def calculateDeterminedScore (amplitude stability tempo zcr : Option ℚ) (jitter : ℚ) : Option ℚ :=
  jmul (jadd (jadd (jadd (jmul amplitude (oc 0.25)) (jmul stability (oc 0.35)))
    (jmul tempo (oc 0.2))) (jmul zcr (oc 0.2))) (oc jitter)

def calculateNostalgicScore (amplitude tempo silenceRatio stability : Option ℚ) (jitter : ℚ) : Option ℚ :=
  let slowTempoScore := jmax (oc 0) (jsub (oc 0.6) tempo)
  let moderateAmplitudeScore := jsub (oc 1) (jabs (jsub amplitude (oc 0.5)))
  jmul (jadd (jadd (jadd (jmul moderateAmplitudeScore (oc 0.3)) (jmul slowTempoScore (oc 0.3)))
    (jmul silenceRatio (oc 0.2))) (jmul stability (oc 0.2))) (oc jitter)

def calculateContemplativeScore (amplitude silenceRatio stability tempo : Option ℚ) (jitter : ℚ) : Option ℚ :=
  let slowTempoScore := jmax (oc 0) (jsub (oc 0.5) tempo)
  let moderateAmplitudeScore := jsub (oc 1) (jabs (jsub amplitude (oc 0.4)))
  jmul (jadd (jadd (jadd (jmul moderateAmplitudeScore (oc 0.25)) (jmul silenceRatio (oc 0.35)))
    (jmul stability (oc 0.25))) (jmul slowTempoScore (oc 0.15))) (oc jitter)

def calculateMelancholicScore (amplitude tempo stability silenceRatio : Option ℚ) (jitter : ℚ) : Option ℚ :=
  let lowAmplitudeScore := jmax (oc 0) (jsub (oc 0.6) amplitude)
  let slowTempoScore := jmax (oc 0) (jsub (oc 0.5) tempo)
  jmul (jadd (jadd (jadd (jmul lowAmplitudeScore (oc 0.3)) (jmul slowTempoScore (oc 0.3)))
    (jmul stability (oc 0.2))) (jmul silenceRatio (oc 0.2))) (oc jitter)

def calculateSadScore (amplitude tempo stability silenceRatio : Option ℚ) (jitter : ℚ) : Option ℚ :=
  let lowAmplitudeScore := jmax (oc 0) (jsub (oc 0.5) amplitude)
  let slowTempoScore := jmax (oc 0) (jsub (oc 0.4) tempo)
  let unstableScore := jmax (oc 0) (jsub (oc 0.6) stability)
  jmul (jadd (jadd (jadd (jmul lowAmplitudeScore (oc 0.3)) (jmul slowTempoScore (oc 0.3)))
    (jmul unstableScore (oc 0.2))) (jmul silenceRatio (oc 0.2))) (oc jitter)

def calculateAnxiousScore (variance stability breathingPatterns tempo : Option ℚ) (jitter : ℚ) : Option ℚ :=
  let unstableScore := jmax (oc 0) (jsub (oc 0.7) stability)
  jmul (jadd (jadd (jadd (jmul variance (oc 0.3)) (jmul unstableScore (oc 0.3)))
    (jmul breathingPatterns (oc 0.2))) (jmul tempo (oc 0.2))) (oc jitter)

def calculateWorriedScore (amplitude pitchVar stability variance : Option ℚ) (jitter : ℚ) : Option ℚ :=
  let moderateAmplitudeScore := jsub (oc 1) (jabs (jsub amplitude (oc 0.5)))
  let unstableScore := jmax (oc 0) (jsub (oc 0.6) stability)
  jmul (jadd (jadd (jadd (jmul moderateAmplitudeScore (oc 0.25)) (jmul pitchVar (oc 0.25)))
    (jmul unstableScore (oc 0.25))) (jmul variance (oc 0.25))) (oc jitter)

def calculateAngryScore (amplitude variance tempo lowFreq : Option ℚ) (jitter : ℚ) : Option ℚ :=
  jmul (jadd (jadd (jadd (jmul amplitude (oc 0.3)) (jmul variance (oc 0.3)))
    (jmul tempo (oc 0.2))) (jmul lowFreq (oc 0.2))) (oc jitter)

def calculateFrustratedScore (variance amplitude stability tempo : Option ℚ) (jitter : ℚ) : Option ℚ :=
  let unstableScore := jmax (oc 0) (jsub (oc 0.6) stability)
  jmul (jadd (jadd (jadd (jmul variance (oc 0.3)) (jmul amplitude (oc 0.25)))
    (jmul unstableScore (oc 0.25))) (jmul tempo (oc 0.2))) (oc jitter)

def calculateConfusedScore (variance stability silenceRatio pitchVar : Option ℚ) (jitter : ℚ) : Option ℚ :=
  let unstableScore := jmax (oc 0) (jsub (oc 0.7) stability)
  jmul (jadd (jadd (jadd (jmul variance (oc 0.25)) (jmul unstableScore (oc 0.25)))
    (jmul silenceRatio (oc 0.25))) (jmul pitchVar (oc 0.25))) (oc jitter)

def calculateLonelyScore (amplitude tempo silenceRatio duration : Option ℚ) (jitter : ℚ) : Option ℚ :=
  let lowAmplitudeScore := jmax (oc 0) (jsub (oc 0.5) amplitude)
  let slowTempoScore := jmax (oc 0) (jsub (oc 0.4) tempo)
  let longDurationScore := jmin (jdivO duration (oc 30)) (oc 1)
  jmul (jadd (jadd (jadd (jmul lowAmplitudeScore (oc 0.3)) (jmul slowTempoScore (oc 0.3)))
    (jmul silenceRatio (oc 0.2))) (jmul longDurationScore (oc 0.2))) (oc jitter)

/-- Normalisation of `averageAmplitude`: `min(max(x * 20, 0), 1)`. -/
def normalizedAmplitudeOf (averageAmplitude : Option ℚ) : Option ℚ :=
  jmin (jmax (jmul averageAmplitude (oc 20)) (oc 0)) (oc 1)

/-- Normalisation of `energyVariance`: `min(max(x * 10, 0), 1)`. -/
def normalizedVarianceOf (energyVariance : Option ℚ) : Option ℚ :=
  jmin (jmax (jmul energyVariance (oc 10)) (oc 0)) (oc 1)

/-- Normalisation of `zeroCrossingRate`: `min(max(x / 0.05, 0), 1)`. -/
def normalizedZCROf (zeroCrossingRate : Option ℚ) : Option ℚ :=
  jmin (jmax (jdivO zeroCrossingRate (oc 0.05)) (oc 0)) (oc 1)

/-- Normalisation of `spectralCentroid`: `min(max(x / 2000, 0), 1)`. -/
def normalizedCentroidOf (spectralCentroid : Option ℚ) : Option ℚ :=
  jmin (jmax (jdivO spectralCentroid (oc 2000)) (oc 0)) (oc 1)

/-- Normalisation of `tempo`: `min(max(x / 100, 0), 1)`. -/
def normalizedTempoOf (tempo : Option ℚ) : Option ℚ :=
  jmin (jmax (jdivO tempo (oc 100)) (oc 0)) (oc 1)

/-- Normalisation of `pitchVariation`: `min(max(x * 5, 0), 1)`. -/
def normalizedPitchVarOf (pitchVariation : Option ℚ) : Option ℚ :=
  jmin (jmax (jmul pitchVariation (oc 5)) (oc 0)) (oc 1)

/-- Normalisation of `lowFrequencyEnergy`: `min(max(x * 10, 0), 1)`. -/
def normalizedLowFreqOf (lowFrequencyEnergy : Option ℚ) : Option ℚ :=
  jmin (jmax (jmul lowFrequencyEnergy (oc 10)) (oc 0)) (oc 1)

/-- Normalisation of `highFrequencyEnergy`: `min(max(x * 10, 0), 1)`. -/
def normalizedHighFreqOf (highFrequencyEnergy : Option ℚ) : Option ℚ :=
  jmin (jmax (jmul highFrequencyEnergy (oc 10)) (oc 0)) (oc 1)

/-- Normalisation of `voiceStability`: `min(max(x * 3, 0), 1)`. -/
def normalizedStabilityOf (voiceStability : Option ℚ) : Option ℚ :=
  jmin (jmax (jmul voiceStability (oc 3)) (oc 0)) (oc 1)

/-- The `emotionScores` object of `determineEmotionFromFeatures`, in
declaration order (`Object.entries` preserves string-key insertion
order).  `silenceRatio`, `duration` and `breathingPatterns` are passed
raw, all other features normalised. -/
def emotionScores (f : AudioFeatures) (J : Jitters) : List (String × Option ℚ) :=
  let normalizedAmplitude := normalizedAmplitudeOf f.averageAmplitude
  let normalizedVariance := normalizedVarianceOf f.energyVariance
  let normalizedZCR := normalizedZCROf f.zeroCrossingRate
  let normalizedCentroid := normalizedCentroidOf f.spectralCentroid
  let normalizedTempo := normalizedTempoOf f.tempo
  let normalizedPitchVar := normalizedPitchVarOf f.pitchVariation
  let normalizedLowFreq := normalizedLowFreqOf f.lowFrequencyEnergy
  let normalizedHighFreq := normalizedHighFreqOf f.highFrequencyEnergy
  let normalizedStability := normalizedStabilityOf f.voiceStability
  [("Joyful", calculateJoyfulScore normalizedAmplitude normalizedTempo normalizedHighFreq normalizedStability J.joyful),
   ("Excited", calculateExcitedScore normalizedAmplitude normalizedTempo normalizedVariance normalizedPitchVar J.excited),
   ("Hopeful", calculateHopefulScore normalizedAmplitude normalizedCentroid normalizedStability normalizedHighFreq J.hopeful),
   ("Grateful", calculateGratefulScore normalizedAmplitude normalizedStability normalizedLowFreq f.silenceRatio J.grateful),
   ("Peaceful", calculatePeacefulScore normalizedAmplitude normalizedStability f.silenceRatio normalizedVariance J.peaceful),
   ("Determined", calculateDeterminedScore normalizedAmplitude normalizedStability normalizedTempo normalizedZCR J.determined),
   ("Nostalgic", calculateNostalgicScore normalizedAmplitude normalizedTempo f.silenceRatio normalizedStability J.nostalgic),
   ("Contemplative", calculateContemplativeScore normalizedAmplitude f.silenceRatio normalizedStability normalizedTempo J.contemplative),
   ("Melancholic", calculateMelancholicScore normalizedAmplitude normalizedTempo normalizedStability f.silenceRatio J.melancholic),
   ("Sad", calculateSadScore normalizedAmplitude normalizedTempo normalizedStability f.silenceRatio J.sad),
   ("Anxious", calculateAnxiousScore normalizedVariance normalizedStability f.breathingPatterns normalizedTempo J.anxious),
   ("Worried", calculateWorriedScore normalizedAmplitude normalizedPitchVar normalizedStability normalizedVariance J.worried),
   ("Angry", calculateAngryScore normalizedAmplitude normalizedVariance normalizedTempo normalizedLowFreq J.angry),
   ("Frustrated", calculateFrustratedScore normalizedVariance normalizedAmplitude normalizedStability normalizedTempo J.frustrated),
   ("Confused", calculateConfusedScore normalizedVariance normalizedStability f.silenceRatio normalizedPitchVar J.confused),
   ("Lonely", calculateLonelyScore normalizedAmplitude normalizedTempo f.silenceRatio f.duration J.lonely)]

/-- One step of the `reduce`: keep the accumulator unless the entry's
score is strictly greater (NaN comparisons are `false`). -/
def betterScore (best entry : String × Option ℚ) : String × Option ℚ :=
  if jgtB entry.2 best.2 then entry else best

/-- The classifier's `reduce` with initial value
`{ emotion: 'Neutral', score: 0 }`. -/
def bestEmotionFold (scores : List (String × Option ℚ)) : String × Option ℚ :=
  scores.foldl betterScore ("Neutral", oc 0)

structure EmotionResult where
  tone : String
  intensity : Option ℚ
deriving DecidableEq

/-- `determineEmotionFromFeatures`: normalise, score, pick the best, and
clamp `bestScore × randomFactor` to `[0.5, 1.0]`. -/
def determineEmotionFromFeatures (features : AudioFeatures) (J : Jitters)
    (randomFactor : ℚ) : EmotionResult :=
  let bestEmotion := bestEmotionFold (emotionScores features J)
  { tone := bestEmotion.1
    intensity := jmin (jmax (jmul bestEmotion.2 (oc randomFactor)) (oc 0.5)) (oc 1) }

/-- The sixteen candidate scores on Scenario A's feature vector (constant
0.9 amplitude, 44100 Hz, 5 s): normalised amplitude, centroid, low/high
energy and stability are all clamped to 1, tempo, variance, zero
crossings, pitch variation and silence are 0, duration is 5 s. -/
def scenarioAScores (J : Jitters) : List (String × Option ℚ) :=
  [("Joyful", some (7/10 * J.joyful)), ("Excited", some (1/4 * J.excited)),
   ("Hopeful", some J.hopeful), ("Grateful", some (9/10 * J.grateful)),
   ("Peaceful", some (23/50 * J.peaceful)), ("Determined", some (3/5 * J.determined)),
   ("Nostalgic", some (53/100 * J.nostalgic)),
   ("Contemplative", some (17/40 * J.contemplative)),
   ("Melancholic", some (7/20 * J.melancholic)), ("Sad", some (3/25 * J.sad)),
   ("Anxious", some 0), ("Worried", some (1/8 * J.worried)),
   ("Angry", some (1/2 * J.angry)), ("Frustrated", some (1/4 * J.frustrated)),
   ("Confused", some 0), ("Lonely", some (23/150 * J.lonely))]

/-- Order relation between two definitely-numeric scores (used to state
monotonicity of the score functions). -/
def oLe (a b : Option ℚ) : Prop := ∃ x y : ℚ, a = some x ∧ b = some y ∧ x ≤ y

/-! ### Evaluation lemmas for the JavaScript-number operations -/

theorem jadd_none_left (x : Option ℚ) : jadd none x = none := by cases x <;> rfl

theorem jadd_none_right (x : Option ℚ) : jadd x none = none := by cases x <;> rfl

theorem jsub_none_right (x : Option ℚ) : jsub x none = none := by cases x <;> rfl

theorem jmul_none_left (x : Option ℚ) : jmul none x = none := by cases x <;> rfl

theorem jmul_none_right (x : Option ℚ) : jmul x none = none := by cases x <;> rfl

theorem jmax_none_right (x : Option ℚ) : jmax x none = none := by cases x <;> rfl

theorem jmin_none_left (x : Option ℚ) : jmin none x = none := by cases x <;> rfl

theorem jgtB_none_left (x : Option ℚ) : jgtB none x = false := by cases x <;> rfl

theorem jgtB_none_right (x : Option ℚ) : jgtB x none = false := by cases x <;> rfl

theorem jsub_none_left (x : Option ℚ) : jsub none x = none := by cases x <;> rfl

theorem jmax_none_left (x : Option ℚ) : jmax none x = none := by cases x <;> rfl

theorem jmin_none_right (x : Option ℚ) : jmin x none = none := by cases x <;> rfl

theorem jdivO_none_left (x : Option ℚ) : jdivO none x = none := by cases x <;> rfl

theorem jdivO_none_right (x : Option ℚ) : jdivO x none = none := by cases x <;> rfl

theorem jabs_none : jabs none = none := rfl

@[simp] theorem oc_eq (q : ℚ) : oc q = some q := rfl

@[simp] theorem jadd_some (a b : ℚ) : jadd (some a) (some b) = some (a + b) := rfl

@[simp] theorem jsub_some (a b : ℚ) : jsub (some a) (some b) = some (a - b) := rfl

@[simp] theorem jmul_some (a b : ℚ) : jmul (some a) (some b) = some (a * b) := rfl

@[simp] theorem jdivO_some (a b : ℚ) :
    jdivO (some a) (some b) = if b = 0 then none else some (a / b) := rfl

@[simp] theorem jmin_some (a b : ℚ) : jmin (some a) (some b) = some (min a b) := rfl

@[simp] theorem jmax_some (a b : ℚ) : jmax (some a) (some b) = some (max a b) := rfl

@[simp] theorem jgtB_some (a b : ℚ) : jgtB (some a) (some b) = decide (b < a) := rfl

@[simp] theorem jabs_some (a : ℚ) : jabs (some a) = some |a| := rfl

/-- The fuelled window loop is fuel-irrelevant once the fuel covers the
buffer length (the JavaScript loop advances by `w ≥ 1` each iteration). -/
theorem jsWindowsGo_eq_jsWindows (w : ℕ) (hw : 1 ≤ w) :
    ∀ fuel (xs : List ℚ), xs.length ≤ fuel → jsWindowsGo w fuel xs = jsWindows xs w := by
  intro fuel
  induction fuel using Nat.strong_induction_on with
  | _ fuel ih =>
    intro xs hlen
    rcases hxs : xs.length with _ | m
    · have hnil : xs = [] := List.length_eq_zero.mp hxs
      subst hnil
      cases fuel with
      | zero => rfl
      | succ n => simp [jsWindowsGo, jsWindows]
    · have hfuel : fuel = (fuel - 1) + 1 := by omega
      rw [hfuel]
      show jsWindowsGo w ((fuel - 1) + 1) xs = jsWindows xs w
      rw [jsWindows]
      rw [hxs]
      show _ = jsWindowsGo w (m + 1) xs
      simp only [jsWindowsGo]
      by_cases hcond : w < xs.length
      · simp only [if_pos hcond]
        have hdrop : (xs.drop w).length = xs.length - w := by simp
        have h1 : jsWindowsGo w (fuel - 1) (xs.drop w) = jsWindows (xs.drop w) w := by
          apply ih (fuel - 1) (by omega)
          omega
        have h2 : jsWindowsGo w m (xs.drop w) = jsWindows (xs.drop w) w := by
          apply ih m (by omega)
          omega
        rw [h1, h2]
      · simp only [if_neg hcond]
  
/-- One-step unfolding of `jsWindows` (for window sizes ≥ 1, which is the
case for every window the engine uses with a positive sample rate). -/
theorem jsWindows_eq (w : ℕ) (hw : 1 ≤ w) (xs : List ℚ) :
    jsWindows xs w = if w < xs.length then xs.take w :: jsWindows (xs.drop w) w else [] := by
  by_cases hcond : w < xs.length
  · rcases hxs : xs.length with _ | m
    · omega
    · rw [if_pos (show w < m + 1 by omega), jsWindows, hxs]
      show jsWindowsGo w (m + 1) xs = _
      simp only [jsWindowsGo]
      rw [if_pos hcond, jsWindowsGo_eq_jsWindows w hw m (xs.drop w) (by simp; omega)]
  · rw [if_neg hcond]
    rcases hxs : xs.length with _ | m
    · have hnil : xs = [] := List.length_eq_zero.mp hxs
      subst hnil
      rfl
    · rw [jsWindows, hxs]
      show jsWindowsGo w (m + 1) xs = []
      simp only [jsWindowsGo]
      rw [if_neg hcond]

/-- `jsWindows` on an empty buffer. -/
theorem jsWindows_nil (w : ℕ) : jsWindows [] w = [] := by
  rfl

/-- `jsWindows` of a buffer not longer than the window size is empty. -/
theorem jsWindows_of_short (w : ℕ) (hw : 1 ≤ w) (xs : List ℚ) (h : ¬ w < xs.length) :
    jsWindows xs w = [] := by
  rw [jsWindows_eq w hw xs, if_neg h]

/-- The windows of a constant buffer are `(n-1)/w` copies of the constant
window (the strict bound `i < n - w` drops the final full window). -/
theorem jsWindows_replicate (w : ℕ) (hw : 1 ≤ w) (c : ℚ) :
    ∀ n, jsWindows (List.replicate n c) w =
      List.replicate ((n - 1) / w) (List.replicate w c) := by
  intro n
  induction n using Nat.strong_induction_on with
  | _ n ih =>
    rw [jsWindows_eq w hw]
    by_cases hcond : w < (List.replicate n c).length
    · simp only [if_pos hcond]
      simp only [List.length_replicate] at hcond
      rw [List.take_replicate, List.drop_replicate, ih (n - w) (by omega)]
      have hmin : min w n = w := by omega
      rw [hmin]
      have hdiv : (n - 1) / w = (n - w - 1) / w + 1 := by
        have hsub : n - 1 = (n - w - 1) + w := by omega
        rw [hsub, Nat.add_div_right _ (by omega)]
      rw [hdiv]
      rfl
    · simp only [if_neg hcond]
      simp only [List.length_replicate] at hcond
      have hdiv : (n - 1) / w = 0 := Nat.div_eq_of_lt (by omega)
      rw [hdiv]
      rfl

/-! ### Properties of the classifier's `reduce` -/

/-- If no entry's score strictly beats the accumulator, the fold keeps it. -/
theorem foldl_betterScore_const (l : List (String × Option ℚ)) (acc : String × Option ℚ)
    (h : ∀ x ∈ l, jgtB x.2 acc.2 = false) : l.foldl betterScore acc = acc := by
  induction l with
  | nil => rfl
  | cons x t ih =>
    simp only [List.foldl_cons]
    have hx : betterScore acc x = acc := by
      rw [betterScore, if_neg]
      simp [h x (by simp)]
    rw [hx]
    exact ih (fun y hy => h y (by simp [hy]))

/-- The winning score is a number (never NaN) and only grows along the fold. -/
theorem foldl_betterScore_mono (l : List (String × Option ℚ)) :
    ∀ (acc : String × Option ℚ) (q : ℚ), acc.2 = some q →
      ∃ r : ℚ, (l.foldl betterScore acc).2 = some r ∧ q ≤ r := by
  induction l with
  | nil => exact fun acc q h => ⟨q, h, le_refl q⟩
  | cons x t ih =>
    intro acc q h
    simp only [List.foldl_cons]
    by_cases hx : jgtB x.2 acc.2 = true
    · rcases x2 : x.2 with _ | v
      · rw [x2, h] at hx
        simp [jgtB] at hx
      · have hstep : betterScore acc x = x := by rw [betterScore, if_pos hx]
        rw [hstep]
        have hlt : q < v := by
          rw [x2, h] at hx
          simpa [jgtB] using hx
        obtain ⟨r, hr, hvr⟩ := ih x v x2
        exact ⟨r, hr, le_of_lt (lt_of_lt_of_le hlt hvr)⟩
    · have hstep : betterScore acc x = acc := by
        rw [betterScore, if_neg]
        simpa using hx
      rw [hstep]
      exact ih acc q h

/-- The fold's result is either the initial accumulator or one of the
entries. -/
theorem foldl_betterScore_origin (l : List (String × Option ℚ)) :
    ∀ acc, l.foldl betterScore acc = acc ∨ (l.foldl betterScore acc) ∈ l := by
  induction l with
  | nil => exact fun acc => Or.inl rfl
  | cons x t ih =>
    intro acc
    simp only [List.foldl_cons]
    rcases ih (betterScore acc x) with h | h
    · rw [h, betterScore]
      by_cases hx : jgtB x.2 acc.2 = true
      · rw [if_pos hx]
        exact Or.inr (by simp)
      · rw [if_neg (by simpa using hx)]
        exact Or.inl rfl
    · exact Or.inr (by simp [h])

/-- Once an entry with a numeric score `s` has been processed, the running
best score is a number that is at least `s`. -/
theorem foldl_betterScore_ge_entry (l₁ l₂ : List (String × Option ℚ)) (e : String) (s : ℚ)
    (acc : String × Option ℚ) (q₀ : ℚ) (hacc : acc.2 = some q₀) :
    ∃ r : ℚ, ((l₁ ++ (e, some s) :: l₂).foldl betterScore acc).2 = some r ∧ s ≤ r := by
  rw [List.foldl_append]
  obtain ⟨q₁, hq₁, _⟩ := foldl_betterScore_mono l₁ acc q₀ hacc
  simp only [List.foldl_cons]
  set acc₁ := l₁.foldl betterScore acc with hacc₁
  have hstep : ∃ q₂ : ℚ, (betterScore acc₁ (e, some s)).2 = some q₂ ∧ s ≤ q₂ := by
    rw [betterScore]
    by_cases hx : jgtB (e, some s).2 acc₁.2 = true
    · rw [if_pos hx]
      exact ⟨s, rfl, le_refl s⟩
    · rw [if_neg (by simpa using hx)]
      refine ⟨q₁, hq₁, ?_⟩
      rw [hq₁] at hx
      simpa [jgtB] using hx
  obtain ⟨q₂, hq₂, hsq₂⟩ := hstep
  obtain ⟨r, hr, hq₂r⟩ := foldl_betterScore_mono l₂ _ q₂ hq₂
  exact ⟨r, hr, le_trans hsq₂ hq₂r⟩

/-- Along a prefix whose scores all stay strictly below `s`, the running
best stays strictly below `s`. -/
theorem foldl_betterScore_lt (l : List (String × Option ℚ)) (s : ℚ) :
    ∀ (acc : String × Option ℚ) (q₀ : ℚ), acc.2 = some q₀ → q₀ < s →
      (∀ x ∈ l, ∀ y : ℚ, x.2 = some y → y < s) →
      ∃ q₁ : ℚ, (l.foldl betterScore acc).2 = some q₁ ∧ q₁ < s := by
  induction l with
  | nil => exact fun acc q₀ h hq _ => ⟨q₀, h, hq⟩
  | cons x t ih =>
    intro acc q₀ h hq hall
    simp only [List.foldl_cons]
    by_cases hx : jgtB x.2 acc.2 = true
    · rcases x2 : x.2 with _ | v
      · rw [x2, h] at hx
        simp [jgtB] at hx
      · have hstep : betterScore acc x = x := by rw [betterScore, if_pos hx]
        rw [hstep]
        exact ih x v x2 (hall x (by simp) v x2) (fun y hy => hall y (by simp [hy]))
    · have hstep : betterScore acc x = acc := by
        rw [betterScore, if_neg]
        simpa using hx
      rw [hstep]
      exact ih acc q₀ h hq (fun y hy => hall y (by simp [hy]))

/-- Once the accumulator holds `(e, some s)` and no later score strictly
exceeds `s`, the accumulator never changes (ties do not displace it). -/
theorem foldl_betterScore_keeps (l : List (String × Option ℚ)) (e : String) (s : ℚ)
    (h : ∀ x ∈ l, ∀ y : ℚ, x.2 = some y → y ≤ s) :
    l.foldl betterScore (e, some s) = (e, some s) := by
  apply foldl_betterScore_const
  intro x hx
  rcases x2 : x.2 with _ | v
  · rfl
  · have hvs : v ≤ s := h x hx v x2
    simp [jgtB, not_lt.mpr hvs]

/-- Claim C1: for every feature record, every jitter assignment and every
final random factor, the returned intensity is exactly
`clamp(bestScore × randomFactor, 0.5, 1.0)`, a number that always lies in
`[0.5, 1.0]` no matter how extreme the feature values are. -/
theorem C1_intensity_clamped (f : AudioFeatures) (J : Jitters) (randomFactor : ℚ) :
    ∃ s : ℚ, (bestEmotionFold (emotionScores f J)).2 = some s ∧
      (determineEmotionFromFeatures f J randomFactor).intensity
        = some (min (max (s * randomFactor) 0.5) 1) ∧
      0.5 ≤ min (max (s * randomFactor) 0.5) 1 ∧
      min (max (s * randomFactor) 0.5) 1 ≤ 1 := by
  obtain ⟨s, hs, -⟩ :=
    foldl_betterScore_mono (emotionScores f J) ("Neutral", oc 0) 0 rfl
  refine ⟨s, hs, ?_, ?_, ?_⟩
  · rw [determineEmotionFromFeatures]
    show jmin (jmax (jmul (bestEmotionFold (emotionScores f J)).2 (oc randomFactor)) (oc 0.5)) (oc 1) = _
    rw [bestEmotionFold, hs]
    simp
  · exact le_min (le_max_right _ _) (by norm_num)
  · exact min_le_right _ _

/-- Claim C5: the classifier's `reduce` selects the entry with the maximum
score; an entry beats every strictly smaller earlier score and is not
displaced by later ties (first-declared wins); and when no score is
strictly positive (no candidate's inputs activated — in particular when
scores are NaN), the result is the `Neutral` fallback with score 0. -/
theorem C5_classifier_argmax :
    (∀ (l₁ l₂ : List (String × Option ℚ)) (e : String) (s : ℚ),
        0 < s →
        (∀ x ∈ l₁, ∀ y : ℚ, x.2 = some y → y < s) →
        (∀ x ∈ l₂, ∀ y : ℚ, x.2 = some y → y ≤ s) →
        bestEmotionFold (l₁ ++ (e, some s) :: l₂) = (e, some s))
    ∧ (∀ l : List (String × Option ℚ),
        (∀ x ∈ l, ∀ y : ℚ, x.2 = some y → y ≤ 0) →
        bestEmotionFold l = ("Neutral", some 0)) := by
  constructor
  · intro l₁ l₂ e s hs h₁ h₂
    rw [bestEmotionFold, List.foldl_append]
    obtain ⟨q₁, hq₁, hq₁s⟩ :=
      foldl_betterScore_lt l₁ s ("Neutral", oc 0) 0 rfl hs h₁
    simp only [List.foldl_cons]
    have hstep : betterScore (l₁.foldl betterScore ("Neutral", oc 0)) (e, some s) = (e, some s) := by
      rw [betterScore, if_pos]
      rw [hq₁]
      simp [jgtB, hq₁s]
    rw [hstep]
    exact foldl_betterScore_keeps l₂ e s h₂
  · intro l h
    rw [bestEmotionFold]
    apply foldl_betterScore_const
    intro x hx
    rcases x2 : x.2 with _ | v
    · rfl
    · have hv : v ≤ 0 := h x hx v x2
      simp [jgtB, oc, not_lt.mpr hv]

theorem C5_classifier_argmax_witness :
    bestEmotionFold [("Joyful", some 0.1), ("Excited", some 0.5), ("Hopeful", some 0.5)]
        = ("Excited", some 0.5)
    ∧ bestEmotionFold [("Joyful", some 0), ("Sad", none)] = ("Neutral", some 0) := by
  constructor
  · have h := C5_classifier_argmax.1 [("Joyful", some 0.1)] [("Hopeful", some 0.5)]
      "Excited" 0.5 (by norm_num)
      (by
        intro x hx y hy
        simp only [List.mem_singleton] at hx
        subst hx
        simp only at hy
        injection hy with hy
        subst hy
        norm_num)
      (by
        intro x hx y hy
        simp only [List.mem_singleton] at hx
        subst hx
        simp only at hy
        injection hy with hy
        subst hy
        norm_num)
    simpa using h
  · apply C5_classifier_argmax.2
    intro x hx y hy
    simp only [List.mem_cons, List.mem_singleton] at hx
    rcases hx with hx | hx | hx
    · subst hx
      injection hy with hy
      subst hy
      norm_num
    · subst hx
      simp at hy
    · simp at hx

/-- Claim C6: the normaliser applies exactly the fixed factors
`amplitude×20`, `variance×10`, `zcr/0.05`, `centroid/2000`, `tempo/100`,
`pitchVariation×5`, `lowEnergy×10`, `highEnergy×10`, `stability×3`, each
clamped to `[0, 1]`. -/
theorem C6_normalizer_factors (q : ℚ) :
    (normalizedAmplitudeOf (some q) = some (min (max (q * 20) 0) 1)
      ∧ 0 ≤ min (max (q * 20) 0) 1 ∧ min (max (q * 20) 0) 1 ≤ 1)
    ∧ (normalizedVarianceOf (some q) = some (min (max (q * 10) 0) 1)
      ∧ 0 ≤ min (max (q * 10) 0) 1 ∧ min (max (q * 10) 0) 1 ≤ 1)
    ∧ (normalizedZCROf (some q) = some (min (max (q / 0.05) 0) 1)
      ∧ 0 ≤ min (max (q / 0.05) 0) 1 ∧ min (max (q / 0.05) 0) 1 ≤ 1)
    ∧ (normalizedCentroidOf (some q) = some (min (max (q / 2000) 0) 1)
      ∧ 0 ≤ min (max (q / 2000) 0) 1 ∧ min (max (q / 2000) 0) 1 ≤ 1)
    ∧ (normalizedTempoOf (some q) = some (min (max (q / 100) 0) 1)
      ∧ 0 ≤ min (max (q / 100) 0) 1 ∧ min (max (q / 100) 0) 1 ≤ 1)
    ∧ (normalizedPitchVarOf (some q) = some (min (max (q * 5) 0) 1)
      ∧ 0 ≤ min (max (q * 5) 0) 1 ∧ min (max (q * 5) 0) 1 ≤ 1)
    ∧ (normalizedLowFreqOf (some q) = some (min (max (q * 10) 0) 1)
      ∧ 0 ≤ min (max (q * 10) 0) 1 ∧ min (max (q * 10) 0) 1 ≤ 1)
    ∧ (normalizedHighFreqOf (some q) = some (min (max (q * 10) 0) 1)
      ∧ 0 ≤ min (max (q * 10) 0) 1 ∧ min (max (q * 10) 0) 1 ≤ 1)
    ∧ (normalizedStabilityOf (some q) = some (min (max (q * 3) 0) 1)
      ∧ 0 ≤ min (max (q * 3) 0) 1 ∧ min (max (q * 3) 0) 1 ≤ 1) := by
  have hb : ∀ x : ℚ, 0 ≤ min (max x 0) 1 ∧ min (max x 0) 1 ≤ 1 := by
    intro x
    exact ⟨le_min (le_max_right _ _) (by norm_num), min_le_right _ _⟩
  refine ⟨⟨?_, hb _⟩, ⟨?_, hb _⟩, ⟨?_, hb _⟩, ⟨?_, hb _⟩, ⟨?_, hb _⟩, ⟨?_, hb _⟩,
    ⟨?_, hb _⟩, ⟨?_, hb _⟩, ⟨?_, hb _⟩⟩ <;>
    norm_num [normalizedAmplitudeOf, normalizedVarianceOf, normalizedZCROf,
      normalizedCentroidOf, normalizedTempoOf, normalizedPitchVarOf,
      normalizedLowFreqOf, normalizedHighFreqOf, normalizedStabilityOf]

/-- Claim C7: when a buffer produces fewer than two complete analysis
windows, each windowed feature (`energyVariance` over 1024-sample windows,
`pitchVariation` over 1024-sample windows, `breathingIrregularity` over
500 ms windows) is exactly the default `0` — no division by the window
count is performed. -/
theorem C7_window_count_guard :
    (∀ xs : List ℚ, (jsWindows xs 1024).length < 2 → calculateEnergyVariance xs = 0)
    ∧ (∀ xs : List ℚ, (jsWindows xs 1024).length < 2 → calculatePitchVariation xs = 0)
    ∧ (∀ (xs : List ℚ) (rate : ℚ),
        (jsWindows xs ((Int.floor (rate * 0.5)).toNat)).length < 2 →
        analyzeBreathingPatterns xs rate = 0) := by
  refine ⟨?_, ?_, ?_⟩
  · intro xs h
    rw [calculateEnergyVariance]
    simp only [List.length_map]
    rw [if_pos h]
  · intro xs h
    rw [calculatePitchVariation]
    have hle : (((jsWindows xs 1024).map estimatePitchFromWindow).filter
        (fun p => decide (0 < p))).length < 2 :=
      lt_of_le_of_lt (le_trans (List.length_filter_le _ _) (by simp)) h
    simp only [if_pos hle]
  · intro xs rate h
    rw [analyzeBreathingPatterns]
    simp only [List.length_map]
    rw [if_pos h]

theorem C7_window_count_guard_witness :
    calculateEnergyVariance [1] = 0 ∧ calculatePitchVariation [1] = 0
      ∧ analyzeBreathingPatterns [1] 44100 = 0 := by
  have h1 : (jsWindows [(1:ℚ)] 1024).length < 2 := by
    rw [jsWindows_of_short 1024 (by norm_num) _ (by simp)]
    norm_num
  have h2 : (jsWindows [(1:ℚ)] ((Int.floor ((44100:ℚ) * 0.5)).toNat)).length < 2 := by
    rw [jsWindows_of_short _ ?_ _ ?_]
    · norm_num
    · rw [show (Int.floor ((44100:ℚ) * 0.5)).toNat = 22050 by norm_num; rfl]
      norm_num
    · rw [show (Int.floor ((44100:ℚ) * 0.5)).toNat = 22050 by norm_num; rfl]
      simp
  exact ⟨C7_window_count_guard.1 [1] h1, C7_window_count_guard.2.1 [1] h1,
    C7_window_count_guard.2.2 [1] 44100 h2⟩

/-- Claim C8, counterexample: normalised amplitude carries `Sad`'s largest
weight (0.3, tied with tempo), but it enters through the inverted term
`max(0, 0.5 - amplitude)`, so raising it from 0 to 0.5 (all other features
and the jitter held fixed) strictly lowers the Sad score from 0.39 to
0.24. -/
theorem C8_top_weight_counterexample :
    calculateSadScore (some 0) (some 0) (some 0) (some 0) 1 = some (39/100)
    ∧ calculateSadScore (some (1/2)) (some 0) (some 0) (some 0) 1 = some (6/25)
    ∧ ((6:ℚ)/25) < 39/100 := by
  refine ⟨?_, ?_, by norm_num⟩ <;>
    norm_num [calculateSadScore, max_def]

/-- Claim C8 (amended): for every candidate whose largest weight (or one of
its tied largest weights) is attached to a feature that enters the score
directly — Joyful and Excited and Angry (amplitude), Hopeful (centroid),
Grateful and Peaceful and Determined (stability), Contemplative (silence
ratio), Anxious and Frustrated and Confused (variance), Worried (pitch
variation) — increasing that feature while holding the remaining features
and the jitter fixed never decreases the candidate's score.  (For Sad,
Melancholic, Lonely and Nostalgic every largest-weight feature enters
through an inverted or tent-shaped term, and increasing it can strictly
decrease the score.) -/
theorem C8_top_weight_monotone :
    (∀ a a' t h st j : ℚ, a ≤ a' → 0 ≤ j →
      oLe (calculateJoyfulScore (some a) (some t) (some h) (some st) j)
          (calculateJoyfulScore (some a') (some t) (some h) (some st) j))
    ∧ (∀ a a' t v p j : ℚ, a ≤ a' → 0 ≤ j →
      oLe (calculateExcitedScore (some a) (some t) (some v) (some p) j)
          (calculateExcitedScore (some a') (some t) (some v) (some p) j))
    ∧ (∀ a c c' st h j : ℚ, c ≤ c' → 0 ≤ j →
      oLe (calculateHopefulScore (some a) (some c) (some st) (some h) j)
          (calculateHopefulScore (some a) (some c') (some st) (some h) j))
    ∧ (∀ a st st' lf sr j : ℚ, st ≤ st' → 0 ≤ j →
      oLe (calculateGratefulScore (some a) (some st) (some lf) (some sr) j)
          (calculateGratefulScore (some a) (some st') (some lf) (some sr) j))
    ∧ (∀ a st st' sr v j : ℚ, st ≤ st' → 0 ≤ j →
      oLe (calculatePeacefulScore (some a) (some st) (some sr) (some v) j)
          (calculatePeacefulScore (some a) (some st') (some sr) (some v) j))
    ∧ (∀ a st st' t z j : ℚ, st ≤ st' → 0 ≤ j →
      oLe (calculateDeterminedScore (some a) (some st) (some t) (some z) j)
          (calculateDeterminedScore (some a) (some st') (some t) (some z) j))
    ∧ (∀ a sr sr' st t j : ℚ, sr ≤ sr' → 0 ≤ j →
      oLe (calculateContemplativeScore (some a) (some sr) (some st) (some t) j)
          (calculateContemplativeScore (some a) (some sr') (some st) (some t) j))
    ∧ (∀ v v' st b t j : ℚ, v ≤ v' → 0 ≤ j →
      oLe (calculateAnxiousScore (some v) (some st) (some b) (some t) j)
          (calculateAnxiousScore (some v') (some st) (some b) (some t) j))
    ∧ (∀ a p p' st v j : ℚ, p ≤ p' → 0 ≤ j →
      oLe (calculateWorriedScore (some a) (some p) (some st) (some v) j)
          (calculateWorriedScore (some a) (some p') (some st) (some v) j))
    ∧ (∀ a a' v t lf j : ℚ, a ≤ a' → 0 ≤ j →
      oLe (calculateAngryScore (some a) (some v) (some t) (some lf) j)
          (calculateAngryScore (some a') (some v) (some t) (some lf) j))
    ∧ (∀ v v' a st t j : ℚ, v ≤ v' → 0 ≤ j →
      oLe (calculateFrustratedScore (some v) (some a) (some st) (some t) j)
          (calculateFrustratedScore (some v') (some a) (some st) (some t) j))
    ∧ (∀ v v' st sr p j : ℚ, v ≤ v' → 0 ≤ j →
      oLe (calculateConfusedScore (some v) (some st) (some sr) (some p) j)
          (calculateConfusedScore (some v') (some st) (some sr) (some p) j)) := by
  refine ⟨?_, ?_, ?_, ?_, ?_, ?_, ?_, ?_, ?_, ?_, ?_, ?_⟩ <;>
    · intro x1 x2 x3 x4 x5 x6 hle hj
      refine ⟨_, _, rfl, rfl, ?_⟩
      apply mul_le_mul_of_nonneg_right _ hj
      dsimp only
      nlinarith [hle]

theorem C8_top_weight_monotone_witness :
    oLe (calculateJoyfulScore (some 0) (some 0) (some 0) (some 0) 1)
        (calculateJoyfulScore (some 1) (some 0) (some 0) (some 0) 1)
    ∧ oLe (calculateGratefulScore (some 0) (some 0) (some 0) (some 0) 1)
        (calculateGratefulScore (some 0) (some 1) (some 0) (some 0) 1) :=
  ⟨C8_top_weight_monotone.1 0 1 0 0 0 1 (by norm_num) (by norm_num),
   C8_top_weight_monotone.2.2.2.1 0 0 1 0 0 1 (by norm_num) (by norm_num)⟩

/-! ### Concrete degenerate buffers -/

set_option maxRecDepth 8000 in
theorem zeroBuffer_one_features : extractAudioFeatures [(0:ℚ)] 44100 =
    { duration := some (1/44100), averageAmplitude := some 0, energyVariance := some 0,
      zeroCrossingRate := some 0, spectralCentroid := some 0, tempo := some 0,
      pitchVariation := some 0, silenceRatio := some 1, lowFrequencyEnergy := some 0,
      highFrequencyEnergy := some 0, voiceStability := some 0, breathingPatterns := some 0 } := by
  have h4410 : (Int.floor ((44100:ℚ) * 0.1)).toNat = 4410 := by norm_num; rfl
  have h22050 : (Int.floor ((44100:ℚ) * 0.5)).toNat = 22050 := by norm_num; rfl
  have hs : (Int.floor (((List.length [(0:ℚ)] : ℚ)) * 0.6)).toNat = 0 := by norm_num
  have hw1 : jsWindows [(0:ℚ)] 1024 = [] := jsWindows_of_short 1024 (by norm_num) _ (by simp)
  have hw2 : jsWindows [(0:ℚ)] 2048 = [] := jsWindows_of_short 2048 (by norm_num) _ (by simp)
  have hw3 : jsWindows [(0:ℚ)] 4410 = [] := jsWindows_of_short 4410 (by norm_num) _ (by simp)
  have hw4 : jsWindows [(0:ℚ)] 22050 = [] := jsWindows_of_short 22050 (by norm_num) _ (by simp)
  simp only [extractAudioFeatures, calculateAverageAmplitude, calculateEnergyVariance,
    calculateZeroCrossingRate, calculateSpectralCentroid, estimateTempo,
    calculatePitchVariation, calculateSilenceRatio, calculateLowFrequencyEnergy,
    calculateHighFrequencyEnergy, calculateVoiceStability, analyzeBreathingPatterns,
    h4410, h22050, hs, hw1, hw2, hw3, hw4, centroidSums, countCrossings, countPeaks,
    sumAbs, sumSq, listMean, listVariance, oc_eq, jdivO_some, List.map, List.sum,
    List.countP, List.countP.go, List.take, List.drop, List.length]
  norm_num

set_option maxRecDepth 8000 in
theorem zeroBuffer_two_features : extractAudioFeatures [(0:ℚ), 0] 44100 =
    { duration := some (1/22050), averageAmplitude := some 0, energyVariance := some 0,
      zeroCrossingRate := some 0, spectralCentroid := some 0, tempo := some 0,
      pitchVariation := some 0, silenceRatio := some 1, lowFrequencyEnergy := some 0,
      highFrequencyEnergy := some 0, voiceStability := some 0, breathingPatterns := some 0 } := by
  have h4410 : (Int.floor ((44100:ℚ) * 0.1)).toNat = 4410 := by norm_num; rfl
  have h22050 : (Int.floor ((44100:ℚ) * 0.5)).toNat = 22050 := by norm_num; rfl
  have hs : (Int.floor (((List.length [(0:ℚ), 0] : ℚ)) * 0.6)).toNat = 1 := by norm_num
  have hw1 : jsWindows [(0:ℚ), 0] 1024 = [] := jsWindows_of_short 1024 (by norm_num) _ (by simp)
  have hw2 : jsWindows [(0:ℚ), 0] 2048 = [] := jsWindows_of_short 2048 (by norm_num) _ (by simp)
  have hw3 : jsWindows [(0:ℚ), 0] 4410 = [] := jsWindows_of_short 4410 (by norm_num) _ (by simp)
  have hw4 : jsWindows [(0:ℚ), 0] 22050 = [] := jsWindows_of_short 22050 (by norm_num) _ (by simp)
  simp only [extractAudioFeatures, calculateAverageAmplitude, calculateEnergyVariance,
    calculateZeroCrossingRate, calculateSpectralCentroid, estimateTempo,
    calculatePitchVariation, calculateSilenceRatio, calculateLowFrequencyEnergy,
    calculateHighFrequencyEnergy, calculateVoiceStability, analyzeBreathingPatterns,
    h4410, h22050, hs, hw1, hw2, hw3, hw4, centroidSums, countCrossings, countPeaks,
    sumAbs, sumSq, listMean, listVariance, oc_eq, jdivO_some, List.map, List.sum,
    List.countP, List.countP.go, List.take, List.drop, List.length]
  norm_num

set_option maxRecDepth 8000 in
theorem zeroBuffer_one_result :
    determineEmotionFromFeatures (extractAudioFeatures [(0:ℚ)] 44100) unitJitters 1 =
      { tone := "Sad", intensity := some (59/100) } := by
  rw [zeroBuffer_one_features]
  simp only [determineEmotionFromFeatures, emotionScores, bestEmotionFold, betterScore,
    normalizedAmplitudeOf, normalizedVarianceOf, normalizedZCROf, normalizedCentroidOf,
    normalizedTempoOf, normalizedPitchVarOf, normalizedLowFreqOf, normalizedHighFreqOf,
    normalizedStabilityOf, calculateJoyfulScore, calculateExcitedScore, calculateHopefulScore,
    calculateGratefulScore, calculatePeacefulScore, calculateDeterminedScore,
    calculateNostalgicScore, calculateContemplativeScore, calculateMelancholicScore,
    calculateSadScore, calculateAnxiousScore, calculateWorriedScore, calculateAngryScore,
    calculateFrustratedScore, calculateConfusedScore, calculateLonelyScore, unitJitters,
    oc_eq, jadd_some, jsub_some, jmul_some, jdivO_some, jmin_some, jmax_some, jgtB_some,
    jabs_some, List.foldl]
  norm_num [min_def, max_def, abs_of_nonneg]

set_option maxRecDepth 8000 in
theorem zeroBuffer_two_result :
    determineEmotionFromFeatures (extractAudioFeatures [(0:ℚ), 0] 44100) unitJitters 1 =
      { tone := "Sad", intensity := some (59/100) } := by
  rw [zeroBuffer_two_features]
  simp only [determineEmotionFromFeatures, emotionScores, bestEmotionFold, betterScore,
    normalizedAmplitudeOf, normalizedVarianceOf, normalizedZCROf, normalizedCentroidOf,
    normalizedTempoOf, normalizedPitchVarOf, normalizedLowFreqOf, normalizedHighFreqOf,
    normalizedStabilityOf, calculateJoyfulScore, calculateExcitedScore, calculateHopefulScore,
    calculateGratefulScore, calculatePeacefulScore, calculateDeterminedScore,
    calculateNostalgicScore, calculateContemplativeScore, calculateMelancholicScore,
    calculateSadScore, calculateAnxiousScore, calculateWorriedScore, calculateAngryScore,
    calculateFrustratedScore, calculateConfusedScore, calculateLonelyScore, unitJitters,
    oc_eq, jadd_some, jsub_some, jmul_some, jdivO_some, jmin_some, jmax_some, jgtB_some,
    jabs_some, List.foldl]
  norm_num [min_def, max_def, abs_of_nonneg]

/-- Claim C2, counterexample: the one-sample all-zero buffer (with every
jitter pinned to 1) has `silenceRatio = 1` but is classified `Sad`, not
`Neutral`: at zero features the inverted terms of several candidates
(`Sad`, `Peaceful`, `Contemplative`, …) are already positive, so the
maximum score is positive and the `Neutral` fallback never fires. -/
theorem C2_allzero_not_neutral :
    calculateSilenceRatio (List.replicate 1 (0:ℚ)) = some 1
    ∧ (determineEmotionFromFeatures (extractAudioFeatures (List.replicate 1 (0:ℚ)) 44100)
        unitJitters 1).tone = "Sad"
    ∧ "Sad" ≠ "Neutral" := by
  rw [List.replicate_one]
  refine ⟨?_, ?_, by decide⟩
  · calc calculateSilenceRatio [(0:ℚ)]
        = (extractAudioFeatures [(0:ℚ)] 44100).silenceRatio := rfl
      _ = some 1 := by rw [zeroBuffer_one_features]
  · rw [zeroBuffer_one_result]

/-- Claim C2 (amended): every nonempty all-zero buffer has
`silenceRatio = 1.0`, but the tone is not `Neutral`: the maximum emotion
score is strictly positive on silence, and with all jitters pinned to 1
the one-sample all-zero buffer is classified `Sad`. -/
theorem C2_allzero_silence_amended :
    (∀ n : ℕ, 1 ≤ n → calculateSilenceRatio (List.replicate n (0:ℚ)) = some 1)
    ∧ (determineEmotionFromFeatures (extractAudioFeatures (List.replicate 1 (0:ℚ)) 44100)
        unitJitters 1).tone = "Sad" := by
  constructor
  · intro n hn
    rw [calculateSilenceRatio]
    simp only [List.countP_replicate, List.length_replicate, oc_eq, jdivO_some]
    rw [if_pos (show decide (|(0:ℚ)| < 0.01) = true by norm_num)]
    have hne : ((n:ℚ)) ≠ 0 := Nat.cast_ne_zero.mpr (by omega)
    rw [if_neg hne, div_self hne]
  · rw [List.replicate_one, zeroBuffer_one_result]

theorem C2_allzero_silence_amended_witness :
    calculateSilenceRatio (List.replicate 3 (0:ℚ)) = some 1
    ∧ (determineEmotionFromFeatures (extractAudioFeatures (List.replicate 1 (0:ℚ)) 44100)
        unitJitters 1).tone = "Sad" :=
  ⟨C2_allzero_silence_amended.1 3 (by norm_num), C2_allzero_silence_amended.2⟩

/-- Claim C3, counterexample: the two-sample all-zero buffer is degenerate
(all-zero and shorter than every analysis window), yet with unit jitters
the analysis returns `Sad` at intensity 0.59 — not `Neutral` at 0.5. -/
theorem C3_degenerate_not_neutral :
    determineEmotionFromFeatures (extractAudioFeatures (List.replicate 2 (0:ℚ)) 44100)
        unitJitters 1 = { tone := "Sad", intensity := some (59/100) }
    ∧ "Sad" ≠ "Neutral" ∧ ((59:ℚ)/100) ≠ 1/2 := by
  refine ⟨?_, by decide, by norm_num⟩
  have h2 : List.replicate 2 (0:ℚ) = [0, 0] := rfl
  rw [h2, zeroBuffer_two_result]

set_option maxRecDepth 8000 in
/-- Claim C3 (amended): the engine is a total function (nothing throws);
for the empty buffer every NaN feature makes every candidate score NaN, so
for every sample rate, every jitter assignment and every random factor the
result is `Neutral` at intensity 0.5.  (Nonempty degenerate buffers — all
zero or shorter than the smallest window — also flow through, but need not
yield `Neutral`/0.5.) -/
theorem C3_empty_buffer_neutral (rate : ℚ) (J : Jitters) (randomFactor : ℚ) :
    determineEmotionFromFeatures (extractAudioFeatures [] rate) J randomFactor
      = { tone := "Neutral", intensity := some (1/2) } := by
  have hw : ∀ w : ℕ, jsWindows [] w = [] := fun w => rfl
  have hscores : emotionScores (extractAudioFeatures [] rate) J =
      [("Joyful", none), ("Excited", none), ("Hopeful", none), ("Grateful", none),
       ("Peaceful", none), ("Determined", none), ("Nostalgic", none), ("Contemplative", none),
       ("Melancholic", none), ("Sad", none), ("Anxious", none), ("Worried", none),
       ("Angry", none), ("Frustrated", none), ("Confused", none), ("Lonely", none)] := by
    simp only [emotionScores, extractAudioFeatures,
      calculateAverageAmplitude, calculateZeroCrossingRate, calculateSilenceRatio,
      estimateTempo, calculateHighFrequencyEnergy, calculateEnergyVariance,
      calculateSpectralCentroid, calculatePitchVariation, calculateLowFrequencyEnergy,
      calculateVoiceStability, analyzeBreathingPatterns, hw,
      calculateJoyfulScore, calculateExcitedScore, calculateHopefulScore,
      calculateGratefulScore, calculatePeacefulScore, calculateDeterminedScore,
      calculateNostalgicScore, calculateContemplativeScore, calculateMelancholicScore,
      calculateSadScore, calculateAnxiousScore, calculateWorriedScore, calculateAngryScore,
      calculateFrustratedScore, calculateConfusedScore, calculateLonelyScore,
      normalizedAmplitudeOf, normalizedVarianceOf, normalizedZCROf, normalizedCentroidOf,
      normalizedTempoOf, normalizedPitchVarOf, normalizedLowFreqOf, normalizedHighFreqOf,
      normalizedStabilityOf,
      sumAbs, sumSq, countCrossings, countPeaks, centroidSums, listMean, listVariance,
      oc_eq, jadd_some, jsub_some, jmul_some, jdivO_some, jmin_some, jmax_some, jgtB_some,
      jabs_some, jadd_none_left, jadd_none_right, jsub_none_right, jmul_none_left,
      jmul_none_right, jmax_none_right, jmax_none_left, jmin_none_left, jmin_none_right,
      jsub_none_left, jdivO_none_left, jdivO_none_right, jgtB_none_left, jgtB_none_right,
      List.map_nil, List.take_nil, List.drop_nil, List.length_nil,
      List.countP_nil, List.sum_nil]
    norm_num [jadd_none_left, jadd_none_right, jsub_none_right, jmul_none_left,
      jmul_none_right, jmax_none_right, jmax_none_left, jmin_none_left, jmin_none_right,
      jsub_none_left, jdivO_none_left, jdivO_none_right, jadd_some, jsub_some, jmul_some,
      jdivO_some, jmin_some, jmax_some, jabs_some, jabs_none]
  have hfold : bestEmotionFold (emotionScores (extractAudioFeatures [] rate) J)
      = ("Neutral", some 0) := by
    rw [hscores, bestEmotionFold]
    apply foldl_betterScore_const
    intro x hx
    fin_cases hx <;> rfl
  rw [determineEmotionFromFeatures]
  show EmotionResult.mk _ _ = _
  rw [hfold]
  simp only [oc_eq, jmul_some, jmax_some, jmin_some]
  norm_num

/-- Claim C4, counterexample: on the empty buffer five extractor outputs
are `0/0`, i.e. NaN (`none` in this model): `averageAmplitude`,
`zeroCrossingRate`, `silenceRatio`, `tempoEstimate` and
`highEnergyProxy`.  The FeatureVector finiteness invariant therefore
fails for the empty buffer. -/
theorem C4_empty_buffer_nan :
    calculateAverageAmplitude ([] : List ℚ) = none
    ∧ calculateZeroCrossingRate ([] : List ℚ) = none
    ∧ calculateSilenceRatio ([] : List ℚ) = none
    ∧ estimateTempo ([] : List ℚ) 44100 = none
    ∧ calculateHighFrequencyEnergy ([] : List ℚ) = none := by
  have hw : ∀ w : ℕ, jsWindows [] w = [] := fun w => rfl
  refine ⟨?_, ?_, ?_, ?_, ?_⟩ <;>
    norm_num [calculateAverageAmplitude, calculateZeroCrossingRate, calculateSilenceRatio,
      estimateTempo, calculateHighFrequencyEnergy, hw, sumAbs, sumSq, countCrossings,
      countPeaks, listMean, oc_eq, jdivO_some]

/-- `jdivO` is a number whenever the denominator is nonzero. -/
theorem jdivO_ne_zero (a b : ℚ) (hb : b ≠ 0) : jdivO (some a) (some b) = some (a / b) := by
  simp [jdivO_some, hb]

/-- Claim C4 (amended): for every nonempty buffer and positive sample
rate, all twelve fields of the extracted FeatureVector are (finite)
numbers — never NaN.  (The empty buffer violates the invariant, see the
counterexample.) -/
theorem C4_features_finite_amended (xs : List ℚ) (rate : ℚ)
    (hxs : xs ≠ []) (hrate : 0 < rate) :
    (∃ q : ℚ, (extractAudioFeatures xs rate).duration = some q)
    ∧ (∃ q : ℚ, (extractAudioFeatures xs rate).averageAmplitude = some q)
    ∧ (∃ q : ℚ, (extractAudioFeatures xs rate).energyVariance = some q)
    ∧ (∃ q : ℚ, (extractAudioFeatures xs rate).zeroCrossingRate = some q)
    ∧ (∃ q : ℚ, (extractAudioFeatures xs rate).spectralCentroid = some q)
    ∧ (∃ q : ℚ, (extractAudioFeatures xs rate).tempo = some q)
    ∧ (∃ q : ℚ, (extractAudioFeatures xs rate).pitchVariation = some q)
    ∧ (∃ q : ℚ, (extractAudioFeatures xs rate).silenceRatio = some q)
    ∧ (∃ q : ℚ, (extractAudioFeatures xs rate).lowFrequencyEnergy = some q)
    ∧ (∃ q : ℚ, (extractAudioFeatures xs rate).highFrequencyEnergy = some q)
    ∧ (∃ q : ℚ, (extractAudioFeatures xs rate).voiceStability = some q)
    ∧ (∃ q : ℚ, (extractAudioFeatures xs rate).breathingPatterns = some q) := by
  have hlen : 0 < xs.length := List.length_pos.mpr hxs
  have hlenQ : ((xs.length : ℚ)) ≠ 0 := Nat.cast_ne_zero.mpr (by omega)
  have hlenQpos : (0:ℚ) < (xs.length : ℚ) := by
    exact_mod_cast hlen
  refine ⟨?_, ?_, ⟨_, rfl⟩, ?_, ⟨_, rfl⟩, ?_, ⟨_, rfl⟩, ?_, ⟨_, rfl⟩, ?_, ⟨_, rfl⟩, ⟨_, rfl⟩⟩
  · exact ⟨_, jdivO_ne_zero _ _ (ne_of_gt hrate)⟩
  · exact ⟨_, jdivO_ne_zero _ _ hlenQ⟩
  · exact ⟨_, jdivO_ne_zero _ _ hlenQ⟩
  · -- tempo: the duration in minutes is positive
    have hdm : ((xs.length : ℚ)) / rate / 60 ≠ 0 := by
      have : (0:ℚ) < ((xs.length : ℚ)) / rate / 60 := by positivity
      exact ne_of_gt this
    exact ⟨_, jdivO_ne_zero _ _ hdm⟩
  · exact ⟨_, jdivO_ne_zero _ _ hlenQ⟩
  · -- highFrequencyEnergy: the window [start, end) is nonempty
    have hfl_lt : Int.floor ((xs.length : ℚ) * 0.6) < (xs.length : ℤ) := by
      apply Int.floor_lt.mpr
      push_cast
      nlinarith [hlenQpos]
    have hfl_nonneg : (0:ℤ) ≤ Int.floor ((xs.length : ℚ) * 0.6) := by
      apply Int.le_floor.mpr
      push_cast
      positivity
    have hs_lt : (Int.floor ((xs.length : ℚ) * 0.6)).toNat < xs.length := by omega
    have he : (Int.floor ((xs.length : ℚ) * 0.6)).toNat
        < min ((Int.floor ((xs.length : ℚ) * 0.6)).toNat + 512) xs.length :=
      lt_min (by omega) hs_lt
    have hne : (((min ((Int.floor ((xs.length : ℚ) * 0.6)).toNat + 512) xs.length : ℕ)) : ℚ)
        - ((Int.floor ((xs.length : ℚ) * 0.6)).toNat : ℚ) ≠ 0 := by
      have hcast : ((Int.floor ((xs.length : ℚ) * 0.6)).toNat : ℚ)
          < (((min ((Int.floor ((xs.length : ℚ) * 0.6)).toNat + 512) xs.length : ℕ)) : ℚ) := by
        exact_mod_cast he
      exact ne_of_gt (by linarith)
    exact ⟨_, jdivO_ne_zero _ _ hne⟩

theorem C4_features_finite_amended_witness :
    (∃ q : ℚ, (extractAudioFeatures [(1:ℚ)/2] 44100).duration = some q)
    ∧ (∃ q : ℚ, (extractAudioFeatures [(1:ℚ)/2] 44100).averageAmplitude = some q)
    ∧ (∃ q : ℚ, (extractAudioFeatures [(1:ℚ)/2] 44100).energyVariance = some q)
    ∧ (∃ q : ℚ, (extractAudioFeatures [(1:ℚ)/2] 44100).zeroCrossingRate = some q)
    ∧ (∃ q : ℚ, (extractAudioFeatures [(1:ℚ)/2] 44100).spectralCentroid = some q)
    ∧ (∃ q : ℚ, (extractAudioFeatures [(1:ℚ)/2] 44100).tempo = some q)
    ∧ (∃ q : ℚ, (extractAudioFeatures [(1:ℚ)/2] 44100).pitchVariation = some q)
    ∧ (∃ q : ℚ, (extractAudioFeatures [(1:ℚ)/2] 44100).silenceRatio = some q)
    ∧ (∃ q : ℚ, (extractAudioFeatures [(1:ℚ)/2] 44100).lowFrequencyEnergy = some q)
    ∧ (∃ q : ℚ, (extractAudioFeatures [(1:ℚ)/2] 44100).highFrequencyEnergy = some q)
    ∧ (∃ q : ℚ, (extractAudioFeatures [(1:ℚ)/2] 44100).voiceStability = some q)
    ∧ (∃ q : ℚ, (extractAudioFeatures [(1:ℚ)/2] 44100).breathingPatterns = some q) :=
  C4_features_finite_amended [(1:ℚ)/2] 44100 (by simp) (by norm_num)

theorem ratSqrt_sq (r : ℚ) (h : 0 ≤ r) : ratSqrt (r * r) = r := by
  have hn : 0 ≤ r.num := Rat.num_nonneg.mpr h
  have hnum : (r * r).num = r.num * r.num := Rat.mul_self_num r
  have hden : (r * r).den = r.den * r.den := Rat.mul_self_den r
  have htn : (r * r).num.toNat = r.num.toNat * r.num.toNat := by
    rw [hnum]
    rcases Int.eq_ofNat_of_zero_le hn with ⟨n, hn'⟩
    rw [hn']
    rw [← Nat.cast_mul, Int.toNat_natCast, Int.toNat_natCast]
  rw [ratSqrt, if_pos]
  · rw [htn, hden, Nat.sqrt_eq, Nat.sqrt_eq]
    have : ((r.num.toNat : ℤ) : ℚ) = (r.num : ℚ) := by
      rw [Int.toNat_of_nonneg hn]
    push_cast at this
    rw [this, Rat.num_div_den]
  · refine ⟨by rw [hnum]; positivity, by rw [htn, Nat.sqrt_eq], by rw [hden, Nat.sqrt_eq]⟩

theorem ratSqrt_zero : ratSqrt 0 = 0 := by
  have h := ratSqrt_sq 0 le_rfl
  simpa using h

theorem ratSqrt_not_square (q : ℚ) (h : ∀ r : ℚ, r * r ≠ q) : ratSqrt q = 0 := by
  rw [ratSqrt]
  by_cases hc : 0 ≤ q.num ∧ Nat.sqrt q.num.toNat * Nat.sqrt q.num.toNat = q.num.toNat
      ∧ Nat.sqrt q.den * Nat.sqrt q.den = q.den
  · exfalso
    obtain ⟨h0, hn, hd⟩ := hc
    apply h ((Nat.sqrt q.num.toNat : ℚ) / (Nat.sqrt q.den : ℚ))
    have hdpos : 0 < q.den := q.pos
    have hdne : (Nat.sqrt q.den : ℚ) ≠ 0 := by
      have : Nat.sqrt q.den ≠ 0 := by
        intro hz
        rw [hz] at hd
        omega
      exact_mod_cast this
    rw [div_mul_div_comm]
    rw [show ((Nat.sqrt q.num.toNat : ℚ)) * (Nat.sqrt q.num.toNat : ℚ)
        = ((Nat.sqrt q.num.toNat * Nat.sqrt q.num.toNat : ℕ) : ℚ) by push_cast; ring]
    rw [show ((Nat.sqrt q.den : ℚ)) * (Nat.sqrt q.den : ℚ)
        = ((Nat.sqrt q.den * Nat.sqrt q.den : ℕ) : ℚ) by push_cast; ring]
    rw [hn, hd]
    have : ((q.num.toNat : ℕ) : ℚ) = (q.num : ℚ) := by
      have := Int.toNat_of_nonneg h0
      exact_mod_cast this
    rw [this, Rat.num_div_den]
  · rw [if_neg hc]

theorem ratSqrt_homog (k v : ℚ) (hk : 0 ≤ k) : ratSqrt (k * k * v) = k * ratSqrt v := by
  by_cases hsq : ∃ r : ℚ, 0 ≤ r ∧ r * r = v
  · obtain ⟨r, hr0, hrr⟩ := hsq
    have h1 : k * k * v = (k * r) * (k * r) := by rw [← hrr]; ring
    rw [h1, ratSqrt_sq _ (mul_nonneg hk hr0), ← hrr, ratSqrt_sq _ hr0]
  · by_cases hk0 : k = 0
    · subst hk0
      simp [ratSqrt_zero]
    · have hns : ∀ r : ℚ, r * r ≠ v := by
        intro r hr
        exact hsq ⟨|r|, abs_nonneg r, by rw [abs_mul_abs_self]; exact hr⟩
      have hns2 : ∀ s : ℚ, s * s ≠ k * k * v := by
        intro s hs
        apply hns (s / k)
        field_simp
        rw [hs]
        ring
      rw [ratSqrt_not_square _ hns2, ratSqrt_not_square _ hns, mul_zero]

/-- Scaling a list scales its `listMean`. -/
theorem listMean_map_mul (k : ℚ) (l : List ℚ) :
    listMean (l.map (fun x => k * x)) = k * listMean l := by
  rw [listMean, listMean, List.length_map]
  rw [show (l.map (fun x => k * x)).sum = k * l.sum from by
    simpa using List.sum_map_mul_left l (fun x => x) k]
  ring

/-- Scaling a list scales its `listVariance` quadratically. -/
theorem listVariance_map_mul (k : ℚ) (l : List ℚ) :
    listVariance (l.map (fun x => k * x)) = k * k * listVariance l := by
  rw [listVariance, listVariance, List.length_map, listMean_map_mul]
  rw [List.map_map]
  rw [show ((fun x => (x - k * listMean l) * (x - k * listMean l)) ∘ fun x => k * x)
      = fun x => k * k * ((x - listMean l) * (x - listMean l)) from by
    funext x
    simp only [Function.comp]
    ring]
  rw [show (l.map (fun x => k * k * ((x - listMean l) * (x - listMean l)))).sum
      = k * k * (l.map (fun x => (x - listMean l) * (x - listMean l))).sum from by
    simpa using List.sum_map_mul_left l (fun x => (x - listMean l) * (x - listMean l)) (k * k)]
  ring

/-- The per-window pitch with conversion constant `c` is the source's
pitch (constant 44100) rescaled by `c / 44100`; the autocorrelation search
itself never looks at the constant. -/
theorem estimatePitchWith_eq_scale (c : ℚ) (w : List ℚ) :
    estimatePitchWith c w = (c / 44100) * estimatePitchFromWindow w := by
  rw [estimatePitchWith, estimatePitchFromWindow]
  by_cases h : 0 < pitchSearch w
  · rw [if_pos h, if_pos h]
    have hp : ((pitchSearch w : ℚ)) ≠ 0 := Nat.cast_ne_zero.mpr (by omega)
    field_simp
  · rw [if_neg h, if_neg h, mul_zero]

/-- The source's `calculatePitchVariation` is the parameterised one at
44100. -/
theorem calculatePitchVariation_eq_with (xs : List ℚ) :
    calculatePitchVariation xs = calculatePitchVariationWith 44100 xs := rfl

/-- Filtering the positives commutes with rescaling by a positive
constant. -/
theorem filter_pos_map_mul (k : ℚ) (hk : 0 < k) (l : List ℚ) :
    (l.map (fun x => k * x)).filter (fun p => decide (0 < p))
      = (l.filter (fun p => decide (0 < p))).map (fun x => k * x) := by
  induction l with
  | nil => rfl
  | cons x t ih =>
    simp only [List.map_cons, List.filter_cons]
    by_cases hx : 0 < x
    · rw [show (decide (0 < x)) = true by simpa using hx]
      rw [show (decide (0 < k * x)) = true by
        simp only [decide_eq_true_eq]
        positivity]
      simp only [if_true]
      rw [List.map_cons, ih]
    · rw [show (decide (0 < x)) = false by simpa using hx]
      rw [show (decide (0 < k * x)) = false by
        simp only [decide_eq_false_iff_not]
        intro hkx
        exact hx (by nlinarith)]
      exact ih

/-- Claim C10: `pitchVariation` does not depend on the hard-coded 44100 Hz
conversion constant: replacing it with any positive constant `c` gives the
same value on every buffer, because the positive per-window pitches are
all rescaled by the positive factor `c / 44100`, and the coefficient of
variation `stddev / mean` is invariant under a common positive scale
(including through the square root, which is positively homogeneous). -/
theorem C10_pitch_constant_irrelevant (c : ℚ) (hc : 0 < c) (xs : List ℚ) :
    calculatePitchVariationWith c xs = calculatePitchVariation xs := by
  set k : ℚ := c / 44100 with hk
  have hkpos : 0 < k := by positivity
  rw [calculatePitchVariation, calculatePitchVariationWith]
  have hmap : (jsWindows xs 1024).map (estimatePitchWith c)
      = ((jsWindows xs 1024).map estimatePitchFromWindow).map (fun x => k * x) := by
    rw [List.map_map]
    apply List.map_congr_left
    intro w _
    simp only [Function.comp_apply]
    rw [estimatePitchWith_eq_scale]
  rw [hmap, filter_pos_map_mul k hkpos]
  set P := ((jsWindows xs 1024).map estimatePitchFromWindow).filter
      (fun p => decide (0 < p)) with hP
  rw [List.length_map]
  by_cases hlen : P.length < 2
  · rw [if_pos hlen, if_pos hlen]
  · rw [if_neg hlen, if_neg hlen]
    rw [listVariance_map_mul, listMean_map_mul, ratSqrt_homog _ _ (le_of_lt hkpos)]
    rw [mul_div_mul_left _ _ (ne_of_gt hkpos)]

theorem C10_pitch_constant_irrelevant_witness :
    calculatePitchVariationWith 22050 [] = calculatePitchVariation [] :=
  C10_pitch_constant_irrelevant 22050 (by norm_num) []

theorem sumAbs_replicate (n : ℕ) (c : ℚ) : sumAbs (List.replicate n c) = n * |c| := by
  rw [sumAbs, List.map_replicate, List.sum_replicate, nsmul_eq_mul]

theorem sumSq_replicate (n : ℕ) (c : ℚ) : sumSq (List.replicate n c) = n * (c * c) := by
  rw [sumSq, List.map_replicate, List.sum_replicate, nsmul_eq_mul]

theorem countCrossings_cons_replicate (c : ℚ) :
    ∀ n, countCrossings (c :: List.replicate n c) = 0 := by
  intro n
  induction n with
  | zero => rfl
  | succ m ih =>
    rw [List.replicate_succ, countCrossings]
    simp [ih]

theorem countCrossings_replicate (n : ℕ) (c : ℚ) :
    countCrossings (List.replicate n c) = 0 := by
  cases n with
  | zero => rfl
  | succ m =>
    rw [List.replicate_succ]
    exact countCrossings_cons_replicate c m

theorem countPeaks_cons_cons_replicate (c th : ℚ) :
    ∀ n, countPeaks (c :: c :: List.replicate n c) th = 0 := by
  intro n
  induction n with
  | zero => rfl
  | succ m ih =>
    rw [List.replicate_succ, countPeaks]
    simp [ih]

theorem countPeaks_replicate (n : ℕ) (c th : ℚ) :
    countPeaks (List.replicate n c) th = 0 := by
  cases n with
  | zero => rfl
  | succ m =>
    cases m with
    | zero => rfl
    | succ m2 =>
      rw [List.replicate_succ, List.replicate_succ]
      exact countPeaks_cons_cons_replicate c th m2

theorem listMean_replicate (n : ℕ) (v : ℚ) (hn : 1 ≤ n) :
    listMean (List.replicate n v) = v := by
  rw [listMean, List.sum_replicate, List.length_replicate, nsmul_eq_mul]
  have : ((n:ℚ)) ≠ 0 := Nat.cast_ne_zero.mpr (by omega)
  field_simp

theorem listVariance_replicate (n : ℕ) (v : ℚ) (hn : 1 ≤ n) :
    listVariance (List.replicate n v) = 0 := by
  rw [listVariance, listMean_replicate n v hn, List.map_replicate]
  simp

theorem corrAt_replicate (m p : ℕ) (c : ℚ) :
    corrAt (List.replicate m c) p = ((m - p : ℕ) : ℚ) * (c * c) := by
  rw [corrAt, List.drop_replicate, List.zip_replicate]
  have hmin : min m (m - p) = m - p := by omega
  rw [hmin, List.map_replicate, List.sum_replicate, nsmul_eq_mul]

theorem pitchSearchGo_stay (w : List ℚ) :
    ∀ (fuel p : ℕ) (M : ℚ) (best : ℕ), (∀ q : ℕ, p ≤ q → corrAt w q ≤ M) →
      pitchSearchGo w fuel p M best = best := by
  intro fuel
  induction fuel with
  | zero => intro p M best _; rfl
  | succ f ih =>
    intro p M best h
    rw [pitchSearchGo]
    by_cases hc : 2 * p < w.length
    · rw [if_pos hc, if_neg (not_lt.mpr (h p (le_refl p)))]
      exact ih (p + 1) M best (fun q hq => h q (by omega))
    · rw [if_neg hc]

theorem pitchSearchGo_succ (w : List ℚ) (fuel p : ℕ) (M : ℚ) (best : ℕ) :
    pitchSearchGo w (fuel + 1) p M best =
      if 2 * p < w.length then
        (if M < corrAt w p then pitchSearchGo w fuel (p + 1) (corrAt w p) p
         else pitchSearchGo w fuel (p + 1) M best)
      else best := rfl

theorem pitchSearch_replicate_1024 (c : ℚ) (hc : c ≠ 0) :
    pitchSearch (List.replicate 1024 c) = 20 := by
  have hcc : 0 < c * c := mul_self_pos.mpr hc
  rw [pitchSearch, List.length_replicate]
  rw [show (1024:ℕ) = 1023 + 1 from rfl, pitchSearchGo_succ]
  rw [if_pos (by norm_num [List.length_replicate] : 2 * 20 < (List.replicate 1024 c).length)]
  rw [if_pos (by
    rw [corrAt_replicate]
    norm_num
    positivity : (0:ℚ) < corrAt (List.replicate 1024 c) 20)]
  apply pitchSearchGo_stay
  intro q hq
  rw [corrAt_replicate, corrAt_replicate]
  have h1 : ((1024 - q : ℕ) : ℚ) ≤ ((1024 - 21 : ℕ) : ℚ) := by
    have : (1024 - q : ℕ) ≤ 1024 - 21 := by omega
    exact_mod_cast this
  have h2 : ((1024 - 21 : ℕ) : ℚ) ≤ ((1024 - 20 : ℕ) : ℚ) := by norm_num
  nlinarith [le_of_lt hcc]

theorem estimatePitchFromWindow_replicate (c : ℚ) (hc : c ≠ 0) :
    estimatePitchFromWindow (List.replicate 1024 c) = 2205 := by
  rw [estimatePitchFromWindow, pitchSearch_replicate_1024 c hc, if_pos (by norm_num)]
  norm_num

theorem centroidSums_replicate (rate c : ℚ) :
    ∀ (m : ℕ) (i : ℕ), centroidSums rate (List.replicate m c) i =
      (rate / (2 * 2048) * |c| * ((m:ℚ) * i + (m:ℚ) * ((m:ℚ) - 1) / 2), (m:ℚ) * |c|) := by
  intro m
  induction m with
  | zero =>
    intro i
    simp [centroidSums]
  | succ k ih =>
    intro i
    rw [List.replicate_succ, centroidSums, ih (i + 1)]
    refine Prod.ext ?_ ?_ <;>
      · dsimp only
        push_cast
        ring

set_option maxRecDepth 8000 in
theorem scenarioA_features :
    extractAudioFeatures (List.replicate 220500 ((9:ℚ)/10)) 44100 =
      { duration := some 5, averageAmplitude := some (9/10), energyVariance := some 0,
        zeroCrossingRate := some 0, spectralCentroid := some (22568175/2048),
        tempo := some 0, pitchVariation := some 0, silenceRatio := some 0,
        lowFrequencyEnergy := some (81/100), highFrequencyEnergy := some (81/100),
        voiceStability := some 1, breathingPatterns := some 0 } := by
  have h4410 : (Int.floor ((44100:ℚ) * 0.1)).toNat = 4410 := by norm_num; rfl
  have h22050 : (Int.floor ((44100:ℚ) * 0.5)).toNat = 22050 := by norm_num; rfl
  have hw1024 : jsWindows (List.replicate 220500 ((9:ℚ)/10)) 1024
      = List.replicate 215 (List.replicate 1024 ((9:ℚ)/10)) := by
    rw [jsWindows_replicate 1024 (by norm_num) ((9:ℚ)/10) 220500]
  have hw2048 : jsWindows (List.replicate 220500 ((9:ℚ)/10)) 2048
      = List.replicate 107 (List.replicate 2048 ((9:ℚ)/10)) := by
    rw [jsWindows_replicate 2048 (by norm_num) ((9:ℚ)/10) 220500]
  have hw4410 : jsWindows (List.replicate 220500 ((9:ℚ)/10)) 4410
      = List.replicate 49 (List.replicate 4410 ((9:ℚ)/10)) := by
    rw [jsWindows_replicate 4410 (by norm_num) ((9:ℚ)/10) 220500]
  have hw22050 : jsWindows (List.replicate 220500 ((9:ℚ)/10)) 22050
      = List.replicate 9 (List.replicate 22050 ((9:ℚ)/10)) := by
    rw [jsWindows_replicate 22050 (by norm_num) ((9:ℚ)/10) 220500]
  have hfs : (Int.floor ((((220500:ℕ)) : ℚ) * 0.6)).toNat = 132300 := by
    norm_num; rfl
  simp only [extractAudioFeatures, AudioFeatures.mk.injEq]
  refine ⟨?_, ?_, ?_, ?_, ?_, ?_, ?_, ?_, ?_, ?_, ?_, ?_⟩
  · -- duration
    rw [List.length_replicate]
    norm_num [oc_eq, jdivO_some]
  · -- averageAmplitude
    rw [calculateAverageAmplitude, sumAbs_replicate, List.length_replicate]
    norm_num [oc_eq, jdivO_some]
  · -- energyVariance
    rw [calculateEnergyVariance]
    simp only [hw1024, List.map_replicate, sumSq_replicate, List.length_replicate]
    rw [if_neg (by norm_num)]
    rw [listVariance_replicate 215 _ (by norm_num), ratSqrt_zero]
    rfl
  · -- zeroCrossingRate
    rw [calculateZeroCrossingRate, countCrossings_replicate, List.length_replicate]
    norm_num [oc_eq, jdivO_some]
  · -- spectralCentroid
    rw [calculateSpectralCentroid, List.take_replicate]
    rw [show min 2048 220500 = 2048 by norm_num]
    rw [centroidSums_replicate]
    rw [if_pos (by norm_num [abs_of_nonneg])]
    norm_num [abs_of_nonneg]
  · -- tempo
    rw [estimateTempo]
    simp only [h4410, hw4410, List.map_replicate, sumSq_replicate, List.length_replicate,
      countPeaks_replicate]
    norm_num [oc_eq, jdivO_some]
  · -- pitchVariation
    rw [calculatePitchVariation]
    simp only [hw1024, List.map_replicate,
      estimatePitchFromWindow_replicate ((9:ℚ)/10) (by norm_num), List.filter_replicate]
    norm_num
    exact Or.inl (by rw [listVariance_replicate 215 _ (by norm_num), ratSqrt_zero])
  · -- silenceRatio
    rw [calculateSilenceRatio, List.countP_replicate, List.length_replicate]
    rw [if_neg (by norm_num [abs_of_nonneg] : ¬ (decide (|(9:ℚ)/10| < 0.01)) = true)]
    norm_num [oc_eq, jdivO_some]
  · -- lowFrequencyEnergy
    rw [calculateLowFrequencyEnergy, List.take_replicate]
    rw [show min 512 220500 = 512 by norm_num]
    rw [sumSq_replicate]
    norm_num
  · -- highFrequencyEnergy
    rw [calculateHighFrequencyEnergy]
    simp only [List.length_replicate, hfs, List.drop_replicate, List.take_replicate]
    rw [show min (132300 + 512) 220500 = 132812 by norm_num]
    rw [show min (132812 - 132300) (220500 - 132300) = 512 by norm_num]
    rw [sumSq_replicate]
    norm_num [oc_eq, jdivO_some]
  · -- voiceStability
    rw [calculateVoiceStability]
    simp only [hw2048, List.map_replicate, List.length_replicate, sumAbs_replicate,
      List.sum_replicate]
    norm_num [ratSqrt_zero]
  · -- breathingPatterns
    rw [analyzeBreathingPatterns]
    simp only [h22050, hw22050, List.map_replicate, List.countP_replicate,
      List.length_replicate]
    rw [if_neg (by norm_num [abs_of_nonneg] : ¬ (decide (|(9:ℚ)/10| < 0.005)) = true)]
    norm_num
    rw [listVariance_replicate 9 _ (by norm_num), ratSqrt_zero]

set_option maxRecDepth 8000 in
theorem scenarioA_unit_result :
    determineEmotionFromFeatures (extractAudioFeatures (List.replicate 220500 ((9:ℚ)/10)) 44100)
        unitJitters 1 = { tone := "Hopeful", intensity := some 1 } := by
  rw [scenarioA_features]
  simp only [determineEmotionFromFeatures, emotionScores, bestEmotionFold, betterScore,
    normalizedAmplitudeOf, normalizedVarianceOf, normalizedZCROf, normalizedCentroidOf,
    normalizedTempoOf, normalizedPitchVarOf, normalizedLowFreqOf, normalizedHighFreqOf,
    normalizedStabilityOf, calculateJoyfulScore, calculateExcitedScore, calculateHopefulScore,
    calculateGratefulScore, calculatePeacefulScore, calculateDeterminedScore,
    calculateNostalgicScore, calculateContemplativeScore, calculateMelancholicScore,
    calculateSadScore, calculateAnxiousScore, calculateWorriedScore, calculateAngryScore,
    calculateFrustratedScore, calculateConfusedScore, calculateLonelyScore, unitJitters,
    oc_eq, jadd_some, jsub_some, jmul_some, jdivO_some, jmin_some, jmax_some, jgtB_some,
    jabs_some, List.foldl]
  norm_num [min_def, max_def, abs_of_nonneg]

set_option maxRecDepth 8000 in
theorem scenarioA_scores (J : Jitters) :
    emotionScores (extractAudioFeatures (List.replicate 220500 ((9:ℚ)/10)) 44100) J =
      scenarioAScores J := by
  rw [scenarioA_features]
  simp only [scenarioAScores, emotionScores,
    normalizedAmplitudeOf, normalizedVarianceOf, normalizedZCROf, normalizedCentroidOf,
    normalizedTempoOf, normalizedPitchVarOf, normalizedLowFreqOf, normalizedHighFreqOf,
    normalizedStabilityOf, calculateJoyfulScore, calculateExcitedScore, calculateHopefulScore,
    calculateGratefulScore, calculatePeacefulScore, calculateDeterminedScore,
    calculateNostalgicScore, calculateContemplativeScore, calculateMelancholicScore,
    calculateSadScore, calculateAnxiousScore, calculateWorriedScore, calculateAngryScore,
    calculateFrustratedScore, calculateConfusedScore, calculateLonelyScore,
    oc_eq, jadd_some, jsub_some, jmul_some, jdivO_some, jmin_some, jmax_some,
    jabs_some]
  norm_num [min_def, max_def, abs_of_nonneg]

/-- `bestEmotionFold` specialisations of the generic fold lemmas. -/
theorem bestEmotionFold_origin (l : List (String × Option ℚ)) :
    bestEmotionFold l = ("Neutral", oc 0) ∨ bestEmotionFold l ∈ l :=
  foldl_betterScore_origin l ("Neutral", oc 0)

theorem bestEmotionFold_ge_entry (l₁ l₂ : List (String × Option ℚ)) (e : String) (s : ℚ) :
    ∃ r : ℚ, (bestEmotionFold (l₁ ++ (e, some s) :: l₂)).2 = some r ∧ s ≤ r :=
  foldl_betterScore_ge_entry l₁ l₂ e s ("Neutral", oc 0) 0 rfl

/-- If the only entries named `name` carry score `s`, the running best is
provably at least `bound > s`, and `name` is not the fallback label, then
the fold cannot return `name`. -/
theorem bestEmotionFold_tone_ne (l : List (String × Option ℚ)) (name : String)
    (s bound : ℚ) (hmem : ∀ x ∈ l, x.1 = name → x.2 = some s) (hlt : s < bound)
    (hge : ∃ r : ℚ, (bestEmotionFold l).2 = some r ∧ bound ≤ r)
    (hinit : "Neutral" ≠ name) : (bestEmotionFold l).1 ≠ name := by
  intro htone
  rcases bestEmotionFold_origin l with h | h
  · rw [h] at htone
    exact hinit htone
  · obtain ⟨r, hr, hbr⟩ := hge
    have hx2 : (bestEmotionFold l).2 = some s := hmem _ h htone
    rw [hx2] at hr
    injection hr with hsr
    rw [hsr] at hlt
    linarith

theorem scenarioAScores_split_grateful (J : Jitters) :
    scenarioAScores J =
      [("Joyful", some (7/10 * J.joyful)), ("Excited", some (1/4 * J.excited)),
       ("Hopeful", some J.hopeful)]
      ++ ("Grateful", some (9/10 * J.grateful)) ::
        [("Peaceful", some (23/50 * J.peaceful)), ("Determined", some (3/5 * J.determined)),
         ("Nostalgic", some (53/100 * J.nostalgic)),
         ("Contemplative", some (17/40 * J.contemplative)),
         ("Melancholic", some (7/20 * J.melancholic)), ("Sad", some (3/25 * J.sad)),
         ("Anxious", some (0:ℚ)), ("Worried", some (1/8 * J.worried)),
         ("Angry", some (1/2 * J.angry)), ("Frustrated", some (1/4 * J.frustrated)),
         ("Confused", some (0:ℚ)), ("Lonely", some (23/150 * J.lonely))] := rfl

theorem scenarioA_best_score_ge (J : Jitters) (hg : 0.8 ≤ J.grateful) :
    ∃ r : ℚ, (bestEmotionFold (scenarioAScores J)).2 = some r ∧ (18:ℚ)/25 ≤ r := by
  rw [scenarioAScores_split_grateful]
  obtain ⟨r, hr, hsr⟩ := bestEmotionFold_ge_entry _ _ "Grateful" (9/10 * J.grateful)
  exact ⟨r, hr, le_trans (by nlinarith) hsr⟩

set_option maxRecDepth 16000 in
theorem scenarioA_never_sad_peaceful (J : Jitters) (hJ : jittersInRange J) (rf : ℚ) :
    (determineEmotionFromFeatures (extractAudioFeatures (List.replicate 220500 ((9:ℚ)/10)) 44100)
        J rf).tone ≠ "Sad"
    ∧ (determineEmotionFromFeatures (extractAudioFeatures (List.replicate 220500 ((9:ℚ)/10)) 44100)
        J rf).tone ≠ "Peaceful" := by
  have htone : (determineEmotionFromFeatures
      (extractAudioFeatures (List.replicate 220500 ((9:ℚ)/10)) 44100) J rf).tone
      = (bestEmotionFold (scenarioAScores J)).1 := by
    simp only [determineEmotionFromFeatures, scenarioA_scores J]
  rw [htone]
  have hge := scenarioA_best_score_ge J hJ.2.2.2.1.1
  constructor
  · apply bestEmotionFold_tone_ne _ _ (3/25 * J.sad) (18/25) _ _ hge (by decide)
    · intro x hx hxn
      simp only [scenarioAScores, List.mem_cons, List.not_mem_nil, or_false] at hx
      rcases hx with h|h|h|h|h|h|h|h|h|h|h|h|h|h|h|h <;> subst h <;>
        first
          | rfl
          | simp at hxn
    · have hs := hJ.2.2.2.2.2.2.2.2.2.1.2
      nlinarith
  · apply bestEmotionFold_tone_ne _ _ (23/50 * J.peaceful) (18/25) _ _ hge (by decide)
    · intro x hx hxn
      simp only [scenarioAScores, List.mem_cons, List.not_mem_nil, or_false] at hx
      rcases hx with h|h|h|h|h|h|h|h|h|h|h|h|h|h|h|h <;> subst h <;>
        first
          | rfl
          | simp at hxn
    · have hp := hJ.2.2.2.2.1.2
      nlinarith

/-- Claim C9, counterexample: the constant 0.9 buffer at 44100 Hz for 5
seconds has `tempoEstimate = 0`, not a high one: all 100 ms window
energies are equal, so no energy exceeds `1.5 × mean` and no peak is
counted.  Its normalised tempo feature is therefore 0 as well. -/
theorem C9_scenarioA_tempo_zero :
    (extractAudioFeatures (List.replicate 220500 ((9:ℚ)/10)) 44100).tempo = some 0
    ∧ normalizedTempoOf (some 0) = some 0 := by
  constructor
  · rw [scenarioA_features]
  · simp [normalizedTempoOf]

/-- Claim C9 (amended): the constant 0.9 buffer at 44100 Hz for 5 seconds
has averageAmplitude 0.9 (normalised to 1, i.e. high) but
`tempoEstimate = 0` (constant energy has no peaks above `1.5 × mean`);
with all jitters pinned to 1 it is classified `Hopeful` (which maximises a
score of 1.0), not `Joyful`/`Excited`; and for every jitter assignment in
`[0.8, 1.2]` and every random factor the tone is never `Sad` and never
`Peaceful` (Grateful's score is at least 0.72 while Sad's is at most 0.144
and Peaceful's at most 0.552). -/
theorem C9_scenarioA_amended :
    (extractAudioFeatures (List.replicate 220500 ((9:ℚ)/10)) 44100).averageAmplitude
        = some (9/10)
    ∧ normalizedAmplitudeOf (some (9/10)) = some 1
    ∧ (extractAudioFeatures (List.replicate 220500 ((9:ℚ)/10)) 44100).tempo = some 0
    ∧ determineEmotionFromFeatures
        (extractAudioFeatures (List.replicate 220500 ((9:ℚ)/10)) 44100) unitJitters 1
        = { tone := "Hopeful", intensity := some 1 }
    ∧ (∀ J : Jitters, jittersInRange J → ∀ rf : ℚ,
        (determineEmotionFromFeatures
          (extractAudioFeatures (List.replicate 220500 ((9:ℚ)/10)) 44100) J rf).tone ≠ "Sad"
        ∧ (determineEmotionFromFeatures
          (extractAudioFeatures (List.replicate 220500 ((9:ℚ)/10)) 44100) J rf).tone ≠ "Peaceful") := by
  refine ⟨?_, ?_, ?_, scenarioA_unit_result, scenarioA_never_sad_peaceful⟩
  · rw [scenarioA_features]
  · norm_num [normalizedAmplitudeOf]
  · rw [scenarioA_features]

theorem C9_scenarioA_amended_witness :
    (determineEmotionFromFeatures
        (extractAudioFeatures (List.replicate 220500 ((9:ℚ)/10)) 44100) unitJitters 37).tone
      ≠ "Sad" :=
  (C9_scenarioA_amended.2.2.2.2 unitJitters
    (by norm_num [jittersInRange, unitJitters]) 37).1
